import Mathlib

/-!
# VapourSource: a shallow embedding of `src/VapourSource.cpp`

`VapourSource.cpp` is an AviSynth 2.6 source plugin that evaluates a VapourSynth
script and serves its output clip.  The file embeds

* `get_avs_pixel_type`, the table scan from VapourSynth format ids to AviSynth
  pixel types;
* `write_interleaved_frame` and `write_stacked_frame`, the two per-frame plane
  converters (the second one with the semantics of the SSE2 intrinsics it uses);
* the constructor, the destructor and `GetFrame` of the class `VapourSource`, as
  functions over the outcomes of the external calls they make, with the list of
  acquiring and releasing calls they perform.

C `int` values are integers; where the source computes on them in a way that can
leave the 32-bit range the model reduces the result with `wrap32`.
-/

namespace VSBridge

/-! ## Constants of the engine headers -/

/-- Names that `VapourSource.cpp` takes from `avisynth.h` and `VapourSynth.h` and does
not define itself: the seventeen VapourSynth preset format ids of the table, the
AviSynth pixel types, `VideoInfo::IsPlanar` (a function of `pixel_type`) and the three
plane selectors.  They are parameters of the model. -/
structure Headers where
  pfGray8 : Int
  pfGray16 : Int
  pfYUV420P8 : Int
  pfYUV420P9 : Int
  pfYUV420P10 : Int
  pfYUV420P16 : Int
  pfYUV422P8 : Int
  pfYUV422P9 : Int
  pfYUV422P10 : Int
  pfYUV422P16 : Int
  pfYUV444P8 : Int
  pfYUV444P9 : Int
  pfYUV444P10 : Int
  pfYUV444P16 : Int
  pfYUV411P8 : Int
  pfCompatBGR32 : Int
  pfCompatYUY2 : Int
  CS_UNKNOWN : Int
  CS_Y8 : Int
  CS_I420 : Int
  CS_YV16 : Int
  CS_YV24 : Int
  CS_YV411 : Int
  CS_BGR32 : Int
  CS_YUY2 : Int
  IsPlanar : Int → Bool
  PLANAR_Y : Int
  PLANAR_U : Int
  PLANAR_V : Int

/-- The seventeen upstream ids of the table, in table order. -/
def Headers.vsFormats (H : Headers) : List Int :=
  [H.pfGray8, H.pfGray16, H.pfYUV420P8, H.pfYUV420P9, H.pfYUV420P10, H.pfYUV420P16,
   H.pfYUV422P8, H.pfYUV422P9, H.pfYUV422P10, H.pfYUV422P16, H.pfYUV444P8, H.pfYUV444P9,
   H.pfYUV444P10, H.pfYUV444P16, H.pfYUV411P8, H.pfCompatBGR32, H.pfCompatYUY2]

/-- The value of a 32-bit pattern read as a C `int` (two's complement). -/
def wrap32 (z : Int) : Int :=
  (z + 2147483648) % 4294967296 - 2147483648

/-- The headers as AviSynth 2.6 and VapourSynth ship them: the preset ids are
`cmGray + 10 ..`, `cmYUV + 10 ..`, `cmCompat + 10 ..`; the pixel types are the bit
patterns of `avisynth.h` read as `int`; `IsPlanar` tests `CS_PLANAR = 1 << 31`, the
sign bit; the plane selectors are `1 << 0`, `1 << 1`, `1 << 2`. -/
def stdHeaders : Headers where
  pfGray8 := 1000010
  pfGray16 := 1000011
  pfYUV420P8 := 3000010
  pfYUV422P8 := 3000011
  pfYUV444P8 := 3000012
  pfYUV411P8 := 3000014
  pfYUV420P9 := 3000016
  pfYUV422P9 := 3000017
  pfYUV444P9 := 3000018
  pfYUV420P10 := 3000019
  pfYUV422P10 := 3000020
  pfYUV444P10 := 3000021
  pfYUV420P16 := 3000022
  pfYUV422P16 := 3000023
  pfYUV444P16 := 3000024
  pfCompatBGR32 := 9000010
  pfCompatYUY2 := 9000011
  CS_UNKNOWN := 0
  CS_BGR32 := 1342177282
  CS_YUY2 := 1610612740
  CS_Y8 := wrap32 3758096384
  CS_I420 := wrap32 2684354576
  CS_YV16 := wrap32 2684355336
  CS_YV24 := wrap32 2684355339
  CS_YV411 := wrap32 2684355337
  IsPlanar := fun pixel_type => decide (pixel_type < 0)
  PLANAR_Y := 1
  PLANAR_U := 2
  PLANAR_V := 4

/-! ## Format mapper -/

/-- One row of the local `table` of `get_avs_pixel_type`. -/
structure PixelFormatEntry where
  vs_format : Int
  avs_pixel_type : Int

/-- The local array `table[]` of `get_avs_pixel_type`; its last row is built from the
argument. -/
def get_avs_pixel_type.table (H : Headers) (inp : Int) : List PixelFormatEntry :=
  [⟨H.pfGray8, H.CS_Y8⟩,
   ⟨H.pfGray16, H.CS_Y8⟩,
   ⟨H.pfYUV420P8, H.CS_I420⟩,
   ⟨H.pfYUV420P9, H.CS_I420⟩,
   ⟨H.pfYUV420P10, H.CS_I420⟩,
   ⟨H.pfYUV420P16, H.CS_I420⟩,
   ⟨H.pfYUV422P8, H.CS_YV16⟩,
   ⟨H.pfYUV422P9, H.CS_YV16⟩,
   ⟨H.pfYUV422P10, H.CS_YV16⟩,
   ⟨H.pfYUV422P16, H.CS_YV16⟩,
   ⟨H.pfYUV444P8, H.CS_YV24⟩,
   ⟨H.pfYUV444P9, H.CS_YV24⟩,
   ⟨H.pfYUV444P10, H.CS_YV24⟩,
   ⟨H.pfYUV444P16, H.CS_YV24⟩,
   ⟨H.pfYUV411P8, H.CS_YV411⟩,
   ⟨H.pfCompatBGR32, H.CS_BGR32⟩,
   ⟨H.pfCompatYUY2, H.CS_YUY2⟩,
   ⟨inp, H.CS_UNKNOWN⟩]

/-- The loop `while (table[i].vs_format != in) i++;` started at index `i`.  The loop has
no bound of its own, so the model runs it on fuel: `none` is a scan that reads past the
end of the array or is still running when the fuel is used up. -/
def get_avs_pixel_type.scan (table : List PixelFormatEntry) (inp : Int) : Nat → Nat → Option Nat
  | 0, _ => none
  | fuel + 1, i =>
    match table[i]? with
    | none => none
    | some e => if e.vs_format ≠ inp then get_avs_pixel_type.scan table inp fuel (i + 1) else some i

/-- The function `get_avs_pixel_type(int in)`: scan from index 0, return
`table[i].avs_pixel_type`.  The fuel is the length of the array. -/
def get_avs_pixel_type (H : Headers) (inp : Int) : Option Int :=
  match get_avs_pixel_type.scan (get_avs_pixel_type.table H inp) inp 18 0 with
  | none => none
  | some i => (get_avs_pixel_type.table H inp)[i]?.map PixelFormatEntry.avs_pixel_type

/-! ## Memory, frames and the SSE2 intrinsics -/

/-- One byte. -/
abbrev Byte := Fin 256

/-- The content of memory, by address.  Where the buffer of a plane starts and ends is kept
with the plane (`AvsPlane.size`, `VSPlane.size`): the 16-byte loads and stores of
`write_stacked_frame` are checked against it; the copy of the host's `BitBlt` is not. -/
abbrev Mem := Int → Byte

/-- The byte with the low eight bits of `n`. -/
def byte (n : Nat) : Byte := Fin.ofNat n

/-- What the accessors of a downstream frame return for one plane: `GetWritePtr`, `GetPitch`,
`GetRowSize`, `GetHeight`; and the plane's buffer: `size` is the number of bytes the host
allocated from the write pointer on, which no accessor returns, `mem` is the content. -/
structure AvsPlane where
  GetWritePtr : Int
  GetPitch : Int
  GetRowSize : Int
  GetHeight : Int
  size : Int
  mem : Mem

/-- A downstream frame (`PVideoFrame`): its planes by plane selector (`PLANAR_Y`, ...).
The planes are independent buffers. -/
structure PVideoFrame where
  plane : Int → AvsPlane

/-- The frame after the buffer of the plane selected by `sel` was overwritten with `m`. -/
def PVideoFrame.setMem (dst : PVideoFrame) (sel : Int) (m : Mem) : PVideoFrame :=
  { plane := Function.update dst.plane sel { dst.plane sel with mem := m } }

/-- What `vsapi->getReadPtr(src, p)` and `vsapi->getStride(src, p)` return for one plane
of an upstream frame; and the plane's buffer: `size` is the number of bytes the engine
allocated from the read pointer on, `mem` is the content. -/
structure VSPlane where
  getReadPtr : Int
  getStride : Int
  size : Int
  mem : Mem

/-- An upstream frame (`const VSFrameRef*`): its planes by index. -/
structure VSFrameRef where
  plane : Int → VSPlane

/-- A 128-bit register as its sixteen bytes, least significant first. -/
abbrev M128 := Fin 16 → Byte

/-- The `j`-th 16-bit lane of a register (little endian). -/
def lane16 (v : M128) (j : Nat) : Nat :=
  (v (Fin.ofNat (2 * j))).val + 256 * (v (Fin.ofNat (2 * j + 1))).val

/-- The `j`-th 32-bit lane of a register (little endian). -/
def lane32 (v : M128) (j : Nat) : Nat :=
  (v (Fin.ofNat (4 * j))).val + 256 * (v (Fin.ofNat (4 * j + 1))).val
    + 65536 * (v (Fin.ofNat (4 * j + 2))).val + 16777216 * (v (Fin.ofNat (4 * j + 3))).val

/-- The register whose 16-bit lanes are `f 0 .. f 7`. -/
def ofLanes16 (f : Nat → Nat) : M128 :=
  fun i => byte (f (i.val / 2) / 256 ^ (i.val % 2))

/-- The register whose 32-bit lanes are `f 0 .. f 3`. -/
def ofLanes32 (f : Nat → Nat) : M128 :=
  fun i => byte (f (i.val / 4) / 256 ^ (i.val % 4))

/-- The intrinsic `_mm_setzero_si128()`. -/
def _mm_setzero_si128 : M128 := fun _ => 0

/-- The intrinsic `_mm_cmpeq_epi32(a, b)`: a 32-bit lane is all ones where the lanes are equal, zero
elsewhere. -/
def _mm_cmpeq_epi32 (a b : M128) : M128 :=
  ofLanes32 (fun j => if lane32 a j = lane32 b j then 4294967295 else 0)

/-- The intrinsic `_mm_srli_epi16(a, imm8)`: every 16-bit lane shifted right by `imm8` bits, zeros
shifted in. -/
def _mm_srli_epi16 (a : M128) (imm8 : Nat) : M128 :=
  ofLanes16 (fun j => if imm8 > 15 then 0 else lane16 a j >>> imm8)

/-- The intrinsic `_mm_and_si128(a, b)`. -/
def _mm_and_si128 (a b : M128) : M128 :=
  fun i => byte ((a i).val &&& (b i).val)

/-- The intrinsic `_mm_srli_si128(a, imm8)`: the whole register shifted right by `imm8` bytes, zeros
shifted in. -/
def _mm_srli_si128 (a : M128) (imm8 : Nat) : M128 :=
  fun i => if i.val + imm8 < 16 then a (Fin.ofNat (i.val + imm8)) else 0

/-- A 16-bit lane read as a signed number. -/
def toInt16 (n : Nat) : Int :=
  if n % 65536 < 32768 then (n % 65536 : Nat) else (n % 65536 : Nat) - 65536

/-- Unsigned saturation of a signed number to one byte. -/
def saturateU8 (z : Int) : Byte :=
  if z < 0 then 0 else if z > 255 then 255 else byte z.toNat

/-- The intrinsic `_mm_packus_epi16(a, b)`: the eight signed 16-bit lanes of `a`, then those of `b`,
each saturated to an unsigned byte. -/
def _mm_packus_epi16 (a b : M128) : M128 :=
  fun i => if i.val < 8 then saturateU8 (toInt16 (lane16 a i.val))
           else saturateU8 (toInt16 (lane16 b (i.val - 8)))

/-- The intrinsic `_mm_load_si128(p)` on the buffer of `size` bytes that starts at `base`: sixteen
bytes from a 16-byte aligned address.  The result `none` is the fault of a misaligned
address, or an access of which a part lies outside the buffer. -/
def _mm_load_si128 (mem : Mem) (base size p : Int) : Option M128 :=
  if p % 16 = 0 ∧ base ≤ p ∧ p + 16 ≤ base + size then some (fun i => mem (p + i.val))
  else none

/-- The intrinsic `_mm_store_si128(p, v)` on the buffer of `size` bytes that starts at `base`:
sixteen bytes to a 16-byte aligned address.  The result `none` is the fault of a
misaligned address, or an access of which a part lies outside the buffer. -/
def _mm_store_si128 (mem : Mem) (base size p : Int) (v : M128) : Option Mem :=
  if p % 16 = 0 ∧ base ≤ p ∧ p + 16 ≤ base + size then
    some (fun a => if p ≤ a ∧ a < p + 16 then v (Fin.ofNat (a - p).toNat) else mem a)
  else none

/-! ## Frame converters -/

/-- The local array `int plane[] = {PLANAR_Y, PLANAR_U, PLANAR_V}` of both converters. -/
def planeSelectors (H : Headers) : List Int := [H.PLANAR_Y, H.PLANAR_U, H.PLANAR_V]

/-- The call `memcpy(dstp, srcp, n)` from one buffer to another. -/
def memcpy (dmem : Mem) (dstp : Int) (smem : Mem) (srcp : Int) (n : Int) : Mem :=
  fun a => if dstp ≤ a ∧ a < dstp + n then smem (srcp + (a - dstp)) else dmem a

/-- Modelled from the spec: the rows of `BitBlt`, `k` more rows of `row_size` bytes each, the
two pointers moved on by their strides after each row. -/
def BitBlt.rows (smem : Mem) (dst_pitch src_pitch row_size : Int) : Nat → Mem → Int → Int → Mem
  | 0, dmem, _, _ => dmem
  | k + 1, dmem, dstp, srcp =>
    BitBlt.rows smem dst_pitch src_pitch row_size k (memcpy dmem dstp smem srcp row_size)
      (dstp + dst_pitch) (srcp + src_pitch)

/-- Modelled from the spec: `IScriptEnvironment::BitBlt`, the downstream engine's raw
byte-block copy primitive, declared in `avisynth.h` and implemented by the host: it copies
`row_size` bytes per row for `height` rows from the stride-addressed rows of the source
into the stride-addressed rows of the destination. -/
def BitBlt (dmem : Mem) (dstp dst_pitch : Int) (smem : Mem) (srcp src_pitch : Int)
    (row_size height : Int) : Mem :=
  BitBlt.rows smem dst_pitch src_pitch row_size height.toNat dmem dstp srcp

/-- The body of the loop of `write_interleaved_frame` for the source plane `p` and the
destination plane selected by `sel`: one `BitBlt` call. -/
def write_interleaved_frame.body (src : VSFrameRef) (p sel : Int) (dst : PVideoFrame) :
    PVideoFrame :=
  dst.setMem sel
    (BitBlt (dst.plane sel).mem (dst.plane sel).GetWritePtr (dst.plane sel).GetPitch
      (src.plane p).mem (src.plane p).getReadPtr (src.plane p).getStride
      (dst.plane sel).GetRowSize (dst.plane sel).GetHeight)

/-- The loop `for (int p = 0; p < num_planes; p++)` of `write_interleaved_frame`, at plane `p`
with `fuel` iterations allowed.  `none` is a read past the end of `plane[]`, or fuel used
up. -/
def write_interleaved_frame.loop (H : Headers) (src : VSFrameRef) (num_planes : Int) :
    Nat → Int → PVideoFrame → Option PVideoFrame
  | 0, _, _ => none
  | fuel + 1, p, dst =>
    if p < num_planes then
      match (planeSelectors H)[p.toNat]? with
      | none => none
      | some sel =>
        write_interleaved_frame.loop H src num_planes fuel (wrap32 (p + 1))
          (write_interleaved_frame.body src p sel dst)
    else some dst

/-- The function `write_interleaved_frame(vsapi, src, dst, num_planes, env)`. -/
def write_interleaved_frame (H : Headers) (src : VSFrameRef) (dst : PVideoFrame)
    (num_planes : Int) : Option PVideoFrame :=
  write_interleaved_frame.loop H src num_planes (num_planes.toNat + 1) 0 dst

/-- The register `mask` of `write_stacked_frame`:
`_mm_srli_epi16(_mm_cmpeq_epi32(mask, mask), 8)` on a zeroed `mask`. -/
def write_stacked_frame.mask : M128 :=
  _mm_srli_epi16 (_mm_cmpeq_epi32 _mm_setzero_si128 _mm_setzero_si128) 8

/-- The body of the loop over `x` in `write_stacked_frame`: two aligned loads of source bytes
`2x .. 2x+31`, the low bytes and the high bytes of the sixteen samples packed, two aligned
stores at column `x` of the upper and of the lower row.  The planes `s` and `d` say where
the two buffers start and end, `dmem` is the content of the destination so far. -/
def write_stacked_frame.chunk (s : VSPlane) (d : AvsPlane) (srcp dstp0 dstp1 x : Int)
    (dmem : Mem) : Option Mem :=
  (_mm_load_si128 s.mem s.getReadPtr s.size (srcp + wrap32 (2 * x))).bind fun xmm0 =>
  (_mm_load_si128 s.mem s.getReadPtr s.size (srcp + wrap32 (2 * x) + 16)).bind fun xmm1 =>
  let lsb := _mm_packus_epi16 (_mm_and_si128 write_stacked_frame.mask xmm0)
    (_mm_and_si128 write_stacked_frame.mask xmm1)
  let xmm0 := _mm_srli_si128 xmm0 1
  let xmm1 := _mm_srli_si128 xmm1 1
  let msb := _mm_packus_epi16 (_mm_and_si128 write_stacked_frame.mask xmm0)
    (_mm_and_si128 write_stacked_frame.mask xmm1)
  (_mm_store_si128 dmem d.GetWritePtr d.size (dstp0 + x) msb).bind fun dmem =>
  _mm_store_si128 dmem d.GetWritePtr d.size (dstp1 + x) lsb

/-- The loop `for (int x = 0; x < rowsize; x += 16)` at column `x`. -/
def write_stacked_frame.row (s : VSPlane) (d : AvsPlane) (srcp dstp0 dstp1 rowsize : Int) :
    Nat → Int → Mem → Option Mem
  | 0, _, _ => none
  | fuel + 1, x, dmem =>
    if x < rowsize then
      (write_stacked_frame.chunk s d srcp dstp0 dstp1 x dmem).bind
        (write_stacked_frame.row s d srcp dstp0 dstp1 rowsize fuel (wrap32 (x + 16)))
    else some dmem

/-- The loop `for (int y = 0; y < height; y++)` at row `y`: one row, then the three pointers
moved on by their strides. -/
def write_stacked_frame.rows (s : VSPlane) (d : AvsPlane)
    (src_pitch dst_pitch rowsize height : Int) :
    Nat → Int → Int → Int → Int → Mem → Option Mem
  | 0, _, _, _, _, _ => none
  | fuel + 1, y, srcp, dstp0, dstp1, dmem =>
    if y < height then
      (write_stacked_frame.row s d srcp dstp0 dstp1 rowsize (rowsize.toNat + 1) 0 dmem).bind
        (write_stacked_frame.rows s d src_pitch dst_pitch rowsize height fuel (wrap32 (y + 1))
          (srcp + src_pitch) (dstp0 + dst_pitch) (dstp1 + dst_pitch))
    else some dmem

/-- The body of the loop over the planes in `write_stacked_frame`, for the source plane `s`
and the destination plane `d`: the new content of the destination buffer. -/
def write_stacked_frame.plane (s : VSPlane) (d : AvsPlane) : Option Mem :=
  let rowsize := d.GetRowSize
  let height := Int.tdiv d.GetHeight 2
  let src_pitch := s.getStride
  let dst_pitch := d.GetPitch
  let srcp := s.getReadPtr
  let dstp0 := d.GetWritePtr
  let dstp1 := dstp0 + wrap32 (dst_pitch * height)
  write_stacked_frame.rows s d src_pitch dst_pitch rowsize height (height.toNat + 1)
    0 srcp dstp0 dstp1 d.mem

/-- The loop `for (int p = 0; p < num_planes; p++)` of `write_stacked_frame`. -/
def write_stacked_frame.loop (H : Headers) (src : VSFrameRef) (num_planes : Int) :
    Nat → Int → PVideoFrame → Option PVideoFrame
  | 0, _, _ => none
  | fuel + 1, p, dst =>
    if p < num_planes then
      match (planeSelectors H)[p.toNat]? with
      | none => none
      | some sel =>
        (write_stacked_frame.plane (src.plane p) (dst.plane sel)).bind fun m =>
          write_stacked_frame.loop H src num_planes fuel (wrap32 (p + 1)) (dst.setMem sel m)
    else some dst

/-- The function `write_stacked_frame(vsapi, src, dst, num_planes, env)`. -/
def write_stacked_frame (H : Headers) (src : VSFrameRef) (dst : PVideoFrame)
    (num_planes : Int) : Option PVideoFrame :=
  write_stacked_frame.loop H src num_planes (num_planes.toNat + 1) 0 dst

/-- The 16-bit sample at row `y`, column `x` of a source plane: two bytes, low byte first. -/
def VSPlane.sample16 (s : VSPlane) (y x : Int) : Nat :=
  (s.mem (s.getReadPtr + y * s.getStride + 2 * x)).val
    + 256 * (s.mem (s.getReadPtr + y * s.getStride + 2 * x + 1)).val

/-- The row size rounded up to the next multiple of 16: the columns that the 16-byte chunks of
one row cover. -/
def chunked (rowsize : Int) : Int := (rowsize + 15) / 16 * 16

/-- What `write_stacked_frame` relies on for a source plane `s` and a destination plane `d`:
both base pointers and both strides are multiples of 16, as the aligned loads and stores
need; the row size is not negative, the pitch is at least the row size and the source stride
at least twice the row size; the values are in the range of `int`, as is the product
`dst_pitch * height` the function computes; and when there is a row to convert, the source
buffer reaches to the end of the last 32 bytes loaded, in row `half - 1`, and the
destination buffer to the end of the last 16 bytes stored, in row `2 * half - 1`. -/
structure StackedReady (s : VSPlane) (d : AvsPlane) : Prop where
  src_aligned : s.getReadPtr % 16 = 0
  stride_aligned : s.getStride % 16 = 0
  dst_aligned : d.GetWritePtr % 16 = 0
  pitch_aligned : d.GetPitch % 16 = 0
  rowsize_nonneg : 0 ≤ d.GetRowSize
  pitch_ge : d.GetRowSize ≤ d.GetPitch
  stride_ge : 2 * d.GetRowSize ≤ s.getStride
  stride_int : s.getStride < 2147483648
  height_int : d.GetHeight < 2147483648
  size_int : d.GetPitch * Int.tdiv d.GetHeight 2 < 2147483648
  src_size : 0 < Int.tdiv d.GetHeight 2 → 0 < d.GetRowSize →
    (Int.tdiv d.GetHeight 2 - 1) * s.getStride + 2 * chunked d.GetRowSize ≤ s.size
  dst_size : 0 < Int.tdiv d.GetHeight 2 → 0 < d.GetRowSize →
    (2 * Int.tdiv d.GetHeight 2 - 1) * d.GetPitch + chunked d.GetRowSize ≤ d.size
/-! ## The session: outcomes of the external calls -/

/-- The fields of a `VSFormat` that the source reads. -/
structure VSFormat where
  id : Int
  bytesPerSample : Int
  numPlanes : Int
  deriving DecidableEq

/-- The fields of a `VSVideoInfo` that the source reads; `format` is a pointer, `none` when
null; `fpsNum` and `fpsDen` are `int64_t`, the others `int`. -/
structure VSVideoInfo where
  format : Option VSFormat
  fpsNum : Int
  fpsDen : Int
  width : Int
  height : Int
  numFrames : Int
  deriving DecidableEq

/-- The fields of AviSynth's `VideoInfo` that the source writes; `field_based` is the bit
that `SetFieldBased` sets or clears. -/
structure VideoInfo where
  width : Int
  height : Int
  fps_numerator : Nat
  fps_denominator : Nat
  num_frames : Int
  pixel_type : Int
  field_based : Bool
  deriving DecidableEq

/-- What the calls that the constructor makes into the operating system, the C library and
the upstream engine return. -/
structure World where
  /-- The return value of `vseval_init()`. -/
  vseval_init : Int
  /-- Whether `vseval_getVSApi()` returns a non-null pointer. -/
  vseval_getVSApi : Bool
  /-- The call `stat(filename, &st)`: `none` when it fails, else `st.st_size`. -/
  stat : String → Option Nat
  /-- Whether `calloc(filesize + 1, 1)` returns a buffer. -/
  calloc : Bool
  /-- Whether `fopen(source, "rb")` returns a file. -/
  fopen : String → Bool
  /-- Whether the `malloc` of the wide string in `convert_ansi_to_utf8` returns a buffer. -/
  malloc_wide : Bool
  /-- Whether the `malloc` of the UTF-8 string in `convert_ansi_to_utf8` returns a buffer. -/
  malloc_utf8 : Bool
  /-- The return value of `vseval_evaluateScript(&se, script_buffer, errfile)`. -/
  vseval_evaluateScript : Int
  /-- Whether `vseval_evaluateScript` left a handle in `se`. -/
  se_created : Bool
  /-- The text `vseval_getError(se)` returns. -/
  vseval_getError : String
  /-- Whether `vseval_getOutput(se, index)` returns a non-null node. -/
  vseval_getOutput : Int → Bool
  /-- The record `vsapi->getVideoInfo(node)` points to. -/
  getVideoInfo : VSVideoInfo

/-- The resources the session code acquires and releases. -/
inductive Resource
  | initToken
  | fileBuffer
  | fileHandle
  | wideBuffer
  | scriptBuffer
  | evalContext
  | outputNode
  deriving DecidableEq

/-- A call that hands out a resource, or one that gives it back. -/
inductive Event
  | acquire (r : Resource)
  | release (r : Resource)
  deriving DecidableEq

/-- The resources held after the events `es`, when `acc` was held before them. -/
def held.go : List Resource → List Event → List Resource
  | acc, [] => acc
  | acc, Event.acquire r :: es => held.go (acc ++ [r]) es
  | acc, Event.release r :: es => held.go (acc.erase r) es

/-- The resources a sequence of events leaves acquired and not released, in order of
acquisition. -/
def held (es : List Event) : List Resource := held.go [] es

/-- One argument of a `ThrowError` call after the format string. -/
inductive FmtArg
  | str (s : String)
  | int (i : Int)
  | uint (n : Nat)
  deriving DecidableEq

/-- The exception `env->ThrowError(fmt, ...)` throws: the format string and its arguments. -/
structure AvisynthError where
  fmt : String
  args : List FmtArg
  deriving DecidableEq

/-- The two functions `func_write_frame` can point to. -/
inductive WriteFrame
  | write_stacked_frame
  | write_interleaved_frame
  deriving DecidableEq

/-- The data members of the class `VapourSource`.  Pointers are recorded as null
(`false`, `none`) or not; `events` is not a member: it lists the acquisitions and releases
performed on behalf of the object so far. -/
structure VapourSource where
  is_init : Int
  se : Bool
  vsapi : Bool
  node : Bool
  vsvi : Option VSVideoInfo
  script_buffer : Bool
  vi : VideoInfo
  func_write_frame : Option WriteFrame
  events : List Event
  deriving DecidableEq

/-- How a run of the constructor ends when it does not return: `thrown e self` is the
exception of a `ThrowError` call, with the members as they are at the throw; `fault` is
undefined behaviour (a table scan that leaves the table). -/
inductive Abort
  | thrown (e : AvisynthError) (self : VapourSource)
  | fault
  deriving DecidableEq

/-- The constant `UINT_MAX` of `limits.h` for a 32-bit `unsigned`. -/
def UINT_MAX : Int := 4294967295

/-- The conversion `(unsigned)z` of a 64-bit value. -/
def toUnsigned (z : Int) : Nat := (z % 4294967296).toNat

/-- The expression `a << k` on `int`.  C++ defines it for `0 ≤ k < 32` when the result fits;
outside of that the model follows the x86 instruction: the count is taken modulo 32 and
the result is the low 32 bits. -/
def shl32 (a k : Int) : Int := wrap32 (a * 2 ^ (k % 32).toNat)

/-- The call `env->ThrowError(fmt, ...)`: it does not return. -/
def ThrowError (self : VapourSource) (fmt : String) (args : List FmtArg) :
    Except Abort VapourSource :=
  Except.error (Abort.thrown ⟨fmt, args⟩ self)

/-! ## The session: constructor, destructor, GetFrame -/

/-- The function `get_filesize(filename)`: 0 when `stat` fails, else `st.st_size`. -/
def get_filesize (w : World) (filename : String) : Nat :=
  match w.stat filename with
  | none => 0
  | some size => size

/-- The function `convert_ansi_to_utf8`: whether it returns a buffer, and the events after
it.  It returns 0 when either `malloc` fails, and frees the wide string on both paths
that allocated it. -/
def convert_ansi_to_utf8 (w : World) (events : List Event) : Bool × List Event :=
  if w.malloc_wide = false then (false, events)
  else if w.malloc_utf8 = false then
    (false, events ++ [Event.acquire Resource.wideBuffer, Event.release Resource.wideBuffer])
  else
    (true, events ++ [Event.acquire Resource.wideBuffer, Event.acquire Resource.scriptBuffer,
      Event.release Resource.wideBuffer])

/-- The members after the first statements of the constructor: `is_init = 0; se = 0; node = 0;
script_buffer = 0; memset(&vi, 0, sizeof(vi));`.  The members these statements leave
unset (`vsapi`, `vsvi`, `func_write_frame`) are recorded as null. -/
def VapourSource.zero : VapourSource where
  is_init := 0
  se := false
  vsapi := false
  node := false
  vsvi := none
  script_buffer := false
  vi := ⟨0, 0, 0, 0, 0, 0, false⟩
  func_write_frame := none
  events := []

/-- Constructor, lines 200-203: `is_init = vseval_init()`. -/
def VapourSource.ctor_init (w : World) (mode : String) (self : VapourSource) :
    Except Abort VapourSource :=
  let self := { self with
    is_init := w.vseval_init
    events := if w.vseval_init = 0 then self.events
              else self.events ++ [Event.acquire Resource.initToken] }
  if self.is_init = 0 then
    ThrowError self "%s: failed to initialize VapourSynth." [FmtArg.str mode]
  else Except.ok self

/-- Constructor, lines 205-208: `vsapi = vseval_getVSApi()`. -/
def VapourSource.ctor_vsapi (w : World) (mode : String) (self : VapourSource) :
    Except Abort VapourSource :=
  let self := { self with vsapi := w.vseval_getVSApi }
  if self.vsapi = false then
    ThrowError self "%s: failed to get vsapi pointer." [FmtArg.str mode]
  else Except.ok self

/-- Constructor, lines 210-244: the script is read from the file `source` when `mode` is
`"VSImport"` and is `source` itself otherwise; either way it goes through
`convert_ansi_to_utf8` into `script_buffer`. -/
def VapourSource.ctor_script (w : World) (source mode : String) (self : VapourSource) :
    Except Abort VapourSource :=
  if mode = "VSImport" then
    let filesize := get_filesize w source
    if filesize = 0 then
      ThrowError self "%s: source file does not exist, or it is empty." [FmtArg.str mode]
    else if filesize > 16 * 1024 * 1024 then
      ThrowError self "%s: filesize of source is over 16MiB." [FmtArg.str mode]
    else if w.calloc = false then
      ThrowError self "%s: failed to allocate script buffer." [FmtArg.str mode]
    else
      let self := { self with events := self.events ++ [Event.acquire Resource.fileBuffer] }
      if w.fopen source = false then
        ThrowError self "%s: failed to open source file." [FmtArg.str mode]
      else
        let events := self.events ++
          [Event.acquire Resource.fileHandle, Event.release Resource.fileHandle]
        let converted := convert_ansi_to_utf8 w events
        let self := { self with
          script_buffer := converted.1
          events := converted.2 ++ [Event.release Resource.fileBuffer] }
        if self.script_buffer = false then
          ThrowError self "%s: failed to convert to UTF-8.\n" [FmtArg.str mode]
        else Except.ok self
  else
    let converted := convert_ansi_to_utf8 w self.events
    let self := { self with script_buffer := converted.1, events := converted.2 }
    if self.script_buffer = false then
      ThrowError self "%s: failed to convert to UTF-8.\n" [FmtArg.str mode]
    else Except.ok self

/-- Constructor, lines 246-249: `vseval_evaluateScript(&se, script_buffer, errfile)`. -/
def VapourSource.ctor_evaluate (w : World) (mode : String) (self : VapourSource) :
    Except Abort VapourSource :=
  let self := { self with
    se := w.se_created
    events := if w.se_created = false then self.events
              else self.events ++ [Event.acquire Resource.evalContext] }
  if w.vseval_evaluateScript ≠ 0 then
    ThrowError self "%s: failed to evaluate script.\n%s"
      [FmtArg.str mode, FmtArg.str w.vseval_getError]
  else Except.ok self

/-- Constructor, lines 251-255: `node = vseval_getOutput(se, index)`. -/
def VapourSource.ctor_output (w : World) (index : Int) (mode : String) (self : VapourSource) :
    Except Abort VapourSource :=
  let self := { self with
    node := w.vseval_getOutput index
    events := if w.vseval_getOutput index = false then self.events
              else self.events ++ [Event.acquire Resource.outputNode] }
  if self.node = false then
    ThrowError self "%s: failed to get VapourSynth clip(index:%d)."
      [FmtArg.str mode, FmtArg.int index]
  else Except.ok self

/-- Constructor, lines 257-294: the checks on the clip's `VSVideoInfo`, the format mapping,
the output geometry and the choice of the converter. -/
def VapourSource.ctor_clip (H : Headers) (w : World) (stacked : Bool) (mode : String)
    (self : VapourSource) : Except Abort VapourSource :=
  let vsvi := w.getVideoInfo
  let self := { self with vsvi := some vsvi }
  if vsvi.numFrames = 0 then
    ThrowError self "%s: input clip has infinite length." [FmtArg.str mode]
  else
    match vsvi.format with
    | none => ThrowError self "%s: input clip is not constant format." [FmtArg.str mode]
    | some format =>
      if vsvi.width = 0 ∨ vsvi.height = 0 then
        ThrowError self "%s: input clip is not constant format." [FmtArg.str mode]
      else if vsvi.fpsNum = 0 then
        ThrowError self "%s: input clip is not constant framerate." [FmtArg.str mode]
      else if vsvi.fpsNum > UINT_MAX then
        ThrowError self "%s: clip has over %u fpsnum." [FmtArg.str mode, FmtArg.uint UINT_MAX.toNat]
      else if vsvi.fpsDen > UINT_MAX then
        ThrowError self "%s: clip has over %u fpsden." [FmtArg.str mode, FmtArg.uint UINT_MAX.toNat]
      else
        match get_avs_pixel_type H format.id with
        | none => Except.error Abort.fault
        | some pixel_type =>
          let self := { self with vi := { self.vi with pixel_type := pixel_type } }
          if self.vi.pixel_type = H.CS_UNKNOWN then
            ThrowError self "%s: input clip is unsupported format." [FmtArg.str mode]
          else
            let over_8bit : Int :=
              if H.IsPlanar self.vi.pixel_type then wrap32 (format.bytesPerSample - 1) else 0
            Except.ok { self with
              vi :=
                { width := shl32 vsvi.width (wrap32 (over_8bit * (if stacked then 0 else 1)))
                  height := shl32 vsvi.height (wrap32 (over_8bit * (if stacked then 1 else 0)))
                  fps_numerator := toUnsigned vsvi.fpsNum
                  fps_denominator := toUnsigned vsvi.fpsDen
                  num_frames := vsvi.numFrames
                  pixel_type := self.vi.pixel_type
                  field_based := false }
              func_write_frame :=
                if over_8bit ≠ 0 ∧ stacked then some WriteFrame.write_stacked_frame
                else some WriteFrame.write_interleaved_frame }

/-- The constructor `VapourSource::VapourSource(source, stacked, index, mode, env)`: the
constructed object, or how the run ends instead. -/
def VapourSource.ctor (H : Headers) (w : World) (source : String) (stacked : Bool)
    (index : Int) (mode : String) : Except Abort VapourSource :=
  VapourSource.ctor_init w mode VapourSource.zero >>= fun self =>
  VapourSource.ctor_vsapi w mode self >>= fun self =>
  VapourSource.ctor_script w source mode self >>= fun self =>
  VapourSource.ctor_evaluate w mode self >>= fun self =>
  VapourSource.ctor_output w index mode self >>= fun self =>
  VapourSource.ctor_clip H w stacked mode self

/-- The function `create_vapoursource(args, user_data, env)`: `args[0]`, `args[1]`, `args[2]`
are `none` where the script left the argument undefined.  The object is built by
`new VapourSource(...)`; when the constructor throws, C++ frees the storage of the object
and passes the exception on, and the destructor `~VapourSource` does not run, so the
result carries the members and the events as the constructor left them. -/
def create_vapoursource (H : Headers) (w : World) (source : Option String)
    (stacked : Option Bool) (index : Option Int) (mode : String) : Except Abort VapourSource :=
  match source with
  | none => ThrowError VapourSource.zero "%s: No source specified" [FmtArg.str mode]
  | some source => VapourSource.ctor H w source (stacked.getD false) (index.getD 0) mode

/-- The resources a run of `create_vapoursource` holds when its exception reaches the
caller (none when it returns a clip or faults). -/
def leaked : Except Abort VapourSource → List Resource
  | Except.error (Abort.thrown _ self) => held self.events
  | _ => []

/-- The destructor `VapourSource::~VapourSource()`: the releases it performs, in order.
`none` is the call through a null `vsapi`. -/
def VapourSource.dtor (self : VapourSource) : Option (List Event) :=
  let e1 := if self.script_buffer then [Event.release Resource.scriptBuffer] else []
  let e3 := if self.se then [Event.release Resource.evalContext] else []
  let e4 := if self.is_init ≠ 0 then [Event.release Resource.initToken] else []
  if self.node then
    if self.vsapi then some (e1 ++ [Event.release Resource.outputNode] ++ e3 ++ e4)
    else none
  else some (e1 ++ e3 ++ e4)

/-- What `GetFrame` asks of the two engines: `env->NewVideoFrame(vi)` and
`vsapi->getFrame(n, node, 0, 0)` (`none` is a null frame). -/
structure FrameEnv where
  NewVideoFrame : VideoInfo → PVideoFrame
  getFrame : Int → Option VSFrameRef

/-- The calls `GetFrame` makes. -/
inductive FrameCall
  | NewVideoFrame (vi : VideoInfo)
  | getFrame (n : Int)
  | func_write_frame (f : WriteFrame) (num_planes : Int)
  | freeFrame
  deriving DecidableEq

/-- A call through the pointer `func_write_frame`. -/
def WriteFrame.call (H : Headers) (f : WriteFrame) (src : VSFrameRef) (dst : PVideoFrame)
    (num_planes : Int) : Option PVideoFrame :=
  match f with
  | WriteFrame.write_stacked_frame => VSBridge.write_stacked_frame H src dst num_planes
  | WriteFrame.write_interleaved_frame => VSBridge.write_interleaved_frame H src dst num_planes

/-- A run of `GetFrame`: the calls made, in order, and the frame returned (`none` when the
run faults before it returns). -/
structure GetFrameRun where
  calls : List FrameCall
  ret : Option PVideoFrame

/-- The method `VapourSource::GetFrame(n, env)`. -/
def VapourSource.GetFrame (H : Headers) (self : VapourSource) (env : FrameEnv) (n : Int) :
    GetFrameRun :=
  let dst := env.NewVideoFrame self.vi
  match env.getFrame n with
  | none => ⟨[FrameCall.NewVideoFrame self.vi, FrameCall.getFrame n], some dst⟩
  | some src =>
    match self.func_write_frame, self.vsvi.bind VSVideoInfo.format with
    | some f, some format =>
      match f.call H src dst format.numPlanes with
      | none =>
        ⟨[FrameCall.NewVideoFrame self.vi, FrameCall.getFrame n,
          FrameCall.func_write_frame f format.numPlanes], none⟩
      | some dst =>
        ⟨[FrameCall.NewVideoFrame self.vi, FrameCall.getFrame n,
          FrameCall.func_write_frame f format.numPlanes, FrameCall.freeFrame], some dst⟩
    | _, _ => ⟨[FrameCall.NewVideoFrame self.vi, FrameCall.getFrame n], none⟩

/-- Every external call of the constructor before the checks on the clip succeeds: the engine
initialises and hands out its function table, in file mode the file has between 1 byte and
16 MiB and is allocated and opened, both buffers of the conversion are allocated, the
script evaluates and has an output at `index`. -/
def World.setupOk (w : World) (source : String) (index : Int) (mode : String) : Prop :=
  w.vseval_init ≠ 0 ∧ w.vseval_getVSApi = true ∧
  (mode = "VSImport" → get_filesize w source ≠ 0 ∧ get_filesize w source ≤ 16 * 1024 * 1024 ∧
    w.calloc = true ∧ w.fopen source = true) ∧
  w.malloc_wide = true ∧ w.malloc_utf8 = true ∧
  w.vseval_evaluateScript = 0 ∧ w.vseval_getOutput index = true

/-- The resources an object owns according to its members, in order of acquisition:
initialization token, script buffer, evaluation context, output node. -/
def VapourSource.owned (self : VapourSource) : List Resource :=
  (if self.is_init ≠ 0 then [Resource.initToken] else []) ++
  (if self.script_buffer then [Resource.scriptBuffer] else []) ++
  (if self.se then [Resource.evalContext] else []) ++
  (if self.node then [Resource.outputNode] else [])

/-! ## Concrete inputs -/

/-- A world in which every call of the constructor succeeds, for a script file of exactly
16 MiB whose outputs 0 and 1 exist, with the clip `vsvi`. -/
def okWorld (vsvi : VSVideoInfo) : World where
  vseval_init := 1
  vseval_getVSApi := true
  stat := fun _ => some 16777216
  calloc := true
  fopen := fun _ => true
  malloc_wide := true
  malloc_utf8 := true
  vseval_evaluateScript := 0
  se_created := true
  vseval_getError := ""
  vseval_getOutput := fun index => decide (index = 0 ∨ index = 1)
  getVideoInfo := vsvi

/-- A 640x480 clip in YUV 4:2:0 with 16-bit samples, 100 frames at 30000/1001 fps. -/
def clipYUV420P16 : VSVideoInfo :=
  ⟨some ⟨stdHeaders.pfYUV420P16, 2, 3⟩, 30000, 1001, 640, 480, 100⟩

/-- A 640x480 clip in packed YUY2, whose `VSFormat` has 2-byte samples. -/
def clipYUY2 : VSVideoInfo :=
  ⟨some ⟨stdHeaders.pfCompatYUY2, 2, 1⟩, 30000, 1001, 640, 480, 100⟩

/-- A clip in YUV 4:2:0 with 16-bit samples that is 2^30 wide. -/
def clipWide : VSVideoInfo :=
  ⟨some ⟨stdHeaders.pfYUV420P16, 2, 3⟩, 30000, 1001, 1073741824, 480, 100⟩

/-- A clip in YUV 4:2:0 with 16-bit samples that is 2^30 high. -/
def clipTall : VSVideoInfo :=
  ⟨some ⟨stdHeaders.pfYUV420P16, 2, 3⟩, 30000, 1001, 640, 1073741824, 100⟩

/-- A clip description whose format record carries a planar id with 4 bytes per sample. -/
def clipFourByte : VSVideoInfo :=
  ⟨some ⟨stdHeaders.pfYUV444P16, 4, 3⟩, 30000, 1001, 640, 480, 100⟩

/-- A description of a 16-bit clip with a negative width, frame count and fps numerator. -/
def clipNegative : VSVideoInfo :=
  ⟨some ⟨stdHeaders.pfYUV420P16, 2, 3⟩, -1, 1001, -640, 480, -100⟩

/-- A world whose script fails to evaluate; the engine has created the script handle, which
holds the error message. -/
def failingScriptWorld : World :=
  { okWorld clipYUV420P16 with
    vseval_evaluateScript := 1
    vseval_getError := "name 'clip' is not defined" }

/-- An upstream frame of three planes at address 4096, 4 rows at stride 32 in a buffer of 128
bytes, filled with a ramp. -/
def rampFrame : VSFrameRef :=
  ⟨fun _ => ⟨4096, 32, 128, fun a => byte (a.toNat * 7 + 3)⟩⟩

/-- A zeroed downstream frame of three planes at address 8192: rows of 8 bytes, pitch 16,
4 rows, in a buffer of 64 bytes. -/
def blankFrame : PVideoFrame :=
  ⟨fun _ => ⟨8192, 16, 8, 4, 64, fun _ => 0⟩⟩

/-- A zeroed downstream frame whose pitch is its row size of 8 bytes, 2 rows, in a buffer of
16 bytes. -/
def tightFrame : PVideoFrame :=
  ⟨fun _ => ⟨8192, 8, 8, 2, 16, fun _ => 0⟩⟩

/-- A zeroed downstream frame of 4 rows of 16 bytes at pitch 2^30, in a buffer of 2^32 bytes,
for which the product `dst_pitch * height` of `write_stacked_frame` is 2^31. -/
def hugeFrame : PVideoFrame :=
  ⟨fun _ => ⟨8192, 1073741824, 16, 4, 4294967296, fun _ => 0⟩⟩

/-- An upstream frame of one row of eight 16-bit samples per plane: stride 16, in a buffer of
16 bytes, filled with a ramp. -/
def narrowFrame : VSFrameRef :=
  ⟨fun _ => ⟨4096, 16, 16, fun a => byte (a.toNat * 7 + 3)⟩⟩

/-- A zeroed downstream frame for the stacked form of `narrowFrame`: 2 rows of 8 bytes at
pitch 16, in a buffer of 32 bytes. -/
def pairFrame : PVideoFrame :=
  ⟨fun _ => ⟨8192, 16, 8, 2, 32, fun _ => 0⟩⟩

/-- The world `okWorld clipYUV420P16` with a script file of 16 MiB + 1 byte. -/
def bigFileWorld : World :=
  { okWorld clipYUV420P16 with stat := fun _ => some 16777217 }

/-- The events of a constructor run that succeeds in file mode. -/
def fileModeEvents : List Event :=
  [Event.acquire Resource.initToken, Event.acquire Resource.fileBuffer,
   Event.acquire Resource.fileHandle, Event.release Resource.fileHandle,
   Event.acquire Resource.wideBuffer, Event.acquire Resource.scriptBuffer,
   Event.release Resource.wideBuffer, Event.release Resource.fileBuffer,
   Event.acquire Resource.evalContext, Event.acquire Resource.outputNode]

/-- The object the constructor builds for `clipYUV420P16` with `stacked = true`. -/
def stackedSession : VapourSource where
  is_init := 1
  se := true
  vsapi := true
  node := true
  vsvi := some clipYUV420P16
  script_buffer := true
  vi := ⟨640, 960, 30000, 1001, 100, stdHeaders.CS_I420, false⟩
  func_write_frame := some WriteFrame.write_stacked_frame
  events := fileModeEvents

/-- The object the constructor builds for `clipYUV420P16` with `stacked = false`. -/
def interleavedSession : VapourSource where
  is_init := 1
  se := true
  vsapi := true
  node := true
  vsvi := some clipYUV420P16
  script_buffer := true
  vi := ⟨1280, 480, 30000, 1001, 100, stdHeaders.CS_I420, false⟩
  func_write_frame := some WriteFrame.write_interleaved_frame
  events := fileModeEvents

/-- The members after the constructor threw at the evaluation of the script in
`failingScriptWorld`, in text mode. -/
def halfBuiltSession : VapourSource :=
  { VapourSource.zero with
    is_init := 1
    vsapi := true
    script_buffer := true
    se := true
    events := [Event.acquire Resource.initToken, Event.acquire Resource.wideBuffer,
      Event.acquire Resource.scriptBuffer, Event.release Resource.wideBuffer,
      Event.acquire Resource.evalContext] }

/-- A frame environment that allocates `blankFrame` and has the upstream frames 0 to 99, each
`rampFrame`; for any other index `getFrame` returns null. -/
def rampEnv : FrameEnv where
  NewVideoFrame := fun _ => blankFrame
  getFrame := fun n => if 0 ≤ n ∧ n < 100 then some rampFrame else none

/-- The bookkeeping of an object agrees with the events: `vsapi` is set whenever `node` is,
and the resources held after the events, the temporary file buffer apart, are the ones the
members own. -/
def VapourSource.Accounted (s : VapourSource) : Prop :=
  (s.node = true → s.vsapi = true) ∧
  (held s.events).filter (fun r => decide (r ≠ Resource.fileBuffer)) = s.owned

/-! ## Format mapper: theorems -/

theorem wrap32_eq_self {z : Int} (h1 : -2147483648 ≤ z) (h2 : z < 2147483648) : wrap32 z = z := by
  unfold wrap32
  omega

/-- With fuel for the rest of the table and a matching row ahead, the scan from row `i` stops
at the first matching row. -/
theorem scan_first_match (t : List PixelFormatEntry) (inp : Int) :
    ∀ (fuel i : Nat), t.length ≤ i + fuel →
      (∃ e ∈ t.drop i, e.vs_format = inp) →
      ∃ k, get_avs_pixel_type.scan t inp fuel i = some k ∧ i ≤ k ∧ k < t.length ∧
        t[k]? = (t.drop i).find? (fun e => decide (e.vs_format = inp)) := by
  intro fuel
  induction fuel with
  | zero =>
    intro i hlen hex
    obtain ⟨e, he, _⟩ := hex
    have : t.drop i = [] := List.drop_eq_nil_of_le (by omega)
    rw [this] at he
    simp at he
  | succ fuel ih =>
    intro i hlen hex
    by_cases hi : i < t.length
    · have hdrop : t.drop i = t[i] :: t.drop (i + 1) := List.drop_eq_getElem_cons hi
      have hget : t[i]? = some t[i] := List.getElem?_eq_getElem hi
      by_cases heq : t[i].vs_format = inp
      · refine ⟨i, ?_, le_refl _, hi, ?_⟩
        · simp [get_avs_pixel_type.scan, hget, heq]
        · rw [hdrop, hget, List.find?_cons]
          simp only [heq, decide_True]
      · have hex2 : ∃ e ∈ t.drop (i + 1), e.vs_format = inp := by
          obtain ⟨e, he, hfmt⟩ := hex
          rw [hdrop] at he
          rcases List.mem_cons.mp he with h | h
          · exact absurd (h ▸ hfmt) heq
          · exact ⟨e, h, hfmt⟩
        obtain ⟨k, hk, hik, hklen, hfind⟩ := ih (i + 1) (by omega) hex2
        refine ⟨k, ?_, by omega, hklen, ?_⟩
        · simp [get_avs_pixel_type.scan, hget, heq, hk]
        · rw [hfind, hdrop, List.find?_cons]
          simp only [heq, decide_False]
    · obtain ⟨e, he, _⟩ := hex
      have : t.drop i = [] := List.drop_eq_nil_of_le (by omega)
      rw [this] at he
      simp at he

/-- The function `get_avs_pixel_type` returns the pixel type of the first row of the table whose id is
the argument. -/
theorem get_avs_pixel_type_eq_find (H : Headers) (inp : Int) :
    get_avs_pixel_type H inp =
      ((get_avs_pixel_type.table H inp).find? (fun e => decide (e.vs_format = inp))).map
        PixelFormatEntry.avs_pixel_type := by
  have hex : ∃ e ∈ (get_avs_pixel_type.table H inp).drop 0, e.vs_format = inp :=
    ⟨⟨inp, H.CS_UNKNOWN⟩, by simp [get_avs_pixel_type.table], rfl⟩
  obtain ⟨k, hk, _, _, hfind⟩ :=
    scan_first_match (get_avs_pixel_type.table H inp) inp 18 0 (by simp [get_avs_pixel_type.table]) hex
  unfold get_avs_pixel_type
  rw [hk]
  simp only [hfind, List.drop_zero]

theorem get_avs_pixel_type_some (H : Headers) (inp : Int) :
    ∃ t, get_avs_pixel_type H inp = some t := by
  have hex : ∃ e ∈ (get_avs_pixel_type.table H inp).drop 0, e.vs_format = inp :=
    ⟨⟨inp, H.CS_UNKNOWN⟩, by simp [get_avs_pixel_type.table], rfl⟩
  obtain ⟨k, hk, _, hlen, _⟩ :=
    scan_first_match (get_avs_pixel_type.table H inp) inp 18 0 (by simp [get_avs_pixel_type.table]) hex
  unfold get_avs_pixel_type
  rw [hk]
  simp only [List.getElem?_eq_getElem hlen, Option.map_some']
  exact ⟨_, rfl⟩

/-- C3: for headers whose seventeen preset ids are different, the scan of `get_avs_pixel_type`
stops within the 18 rows of the table for every argument, every tabulated id maps to the
pixel type of its row, and every other argument maps to `CS_UNKNOWN`. -/
theorem get_avs_pixel_type_table (H : Headers) (hd : H.vsFormats.Nodup) :
    (∀ inp, ∃ i t, i < 18 ∧
      get_avs_pixel_type.scan (get_avs_pixel_type.table H inp) inp 18 0 = some i ∧
      get_avs_pixel_type H inp = some t) ∧
    (get_avs_pixel_type H H.pfGray8 = some H.CS_Y8 ∧
     get_avs_pixel_type H H.pfGray16 = some H.CS_Y8 ∧
     get_avs_pixel_type H H.pfYUV420P8 = some H.CS_I420 ∧
     get_avs_pixel_type H H.pfYUV420P9 = some H.CS_I420 ∧
     get_avs_pixel_type H H.pfYUV420P10 = some H.CS_I420 ∧
     get_avs_pixel_type H H.pfYUV420P16 = some H.CS_I420 ∧
     get_avs_pixel_type H H.pfYUV422P8 = some H.CS_YV16 ∧
     get_avs_pixel_type H H.pfYUV422P9 = some H.CS_YV16 ∧
     get_avs_pixel_type H H.pfYUV422P10 = some H.CS_YV16 ∧
     get_avs_pixel_type H H.pfYUV422P16 = some H.CS_YV16 ∧
     get_avs_pixel_type H H.pfYUV444P8 = some H.CS_YV24 ∧
     get_avs_pixel_type H H.pfYUV444P9 = some H.CS_YV24 ∧
     get_avs_pixel_type H H.pfYUV444P10 = some H.CS_YV24 ∧
     get_avs_pixel_type H H.pfYUV444P16 = some H.CS_YV24 ∧
     get_avs_pixel_type H H.pfYUV411P8 = some H.CS_YV411 ∧
     get_avs_pixel_type H H.pfCompatBGR32 = some H.CS_BGR32 ∧
     get_avs_pixel_type H H.pfCompatYUY2 = some H.CS_YUY2) ∧
    (∀ inp, inp ∉ H.vsFormats → get_avs_pixel_type H inp = some H.CS_UNKNOWN) := by
  refine ⟨?_, ?_, ?_⟩
  · intro inp
    have hex : ∃ e ∈ (get_avs_pixel_type.table H inp).drop 0, e.vs_format = inp :=
      ⟨⟨inp, H.CS_UNKNOWN⟩, by simp [get_avs_pixel_type.table], rfl⟩
    obtain ⟨k, hk, _, hlen, _⟩ := scan_first_match (get_avs_pixel_type.table H inp) inp 18 0
      (by simp [get_avs_pixel_type.table]) hex
    obtain ⟨t, ht⟩ := get_avs_pixel_type_some H inp
    exact ⟨k, t, by simpa [get_avs_pixel_type.table] using hlen, hk, ht⟩
  · simp only [Headers.vsFormats, List.nodup_cons, List.mem_cons, not_or, List.mem_singleton] at hd
    refine ⟨?_, ?_, ?_, ?_, ?_, ?_, ?_, ?_, ?_, ?_, ?_, ?_, ?_, ?_, ?_, ?_, ?_⟩ <;>
      rw [get_avs_pixel_type_eq_find] <;>
      simp [get_avs_pixel_type.table, List.find?_cons, hd]
  · intro inp hin
    rw [get_avs_pixel_type_eq_find]
    simp only [Headers.vsFormats, List.mem_cons, not_or, List.mem_singleton] at hin
    simp [get_avs_pixel_type.table, List.find?_cons, hin, eq_comm]

/-! ## Interleaved copy: theorems -/

/-- A block copy leaves every address outside the copied rows as it was. -/
theorem BitBlt.rows_frame (smem : Mem) (dst_pitch src_pitch row_size : Int) :
    ∀ (k : Nat) (dmem : Mem) (dstp srcp a : Int),
      (∀ j : Nat, j < k → ¬(dstp + j * dst_pitch ≤ a ∧ a < dstp + j * dst_pitch + row_size)) →
      BitBlt.rows smem dst_pitch src_pitch row_size k dmem dstp srcp a = dmem a := by
  intro k
  induction k with
  | zero => intro dmem dstp srcp a _; rfl
  | succ k ih =>
    intro dmem dstp srcp a h
    rw [BitBlt.rows, ih]
    · have h0 := h 0 (Nat.succ_pos k)
      simp only [Nat.cast_zero, zero_mul, add_zero] at h0
      simp only [memcpy, h0, if_false]
    · intro j hj
      have := h (j + 1) (Nat.succ_lt_succ hj)
      have e : dstp + dst_pitch + (j : Int) * dst_pitch = dstp + ((j + 1 : Nat) : Int) * dst_pitch := by
        push_cast; ring
      rw [e]
      exact this

/-- A block copy with rows that do not overlap puts the bytes of source row `j` into destination
row `j`. -/
theorem BitBlt.rows_copied (smem : Mem) (dst_pitch src_pitch row_size : Int)
    (hp : row_size ≤ dst_pitch) :
    ∀ (k : Nat) (dmem : Mem) (dstp srcp : Int) (j : Nat) (x : Int),
      j < k → 0 ≤ x → x < row_size →
      BitBlt.rows smem dst_pitch src_pitch row_size k dmem dstp srcp (dstp + j * dst_pitch + x)
        = smem (srcp + j * src_pitch + x) := by
  intro k
  induction k with
  | zero => intro _ _ _ j _ hj; exact absurd hj (Nat.not_lt_zero j)
  | succ k ih =>
    intro dmem dstp srcp j x hj hx0 hx
    rw [BitBlt.rows]
    cases j with
    | zero =>
      rw [BitBlt.rows_frame]
      · simp only [Nat.cast_zero, zero_mul, add_zero, memcpy]
        rw [if_pos ⟨by omega, by omega⟩]
        congr 1
        ring
      · intro i _
        have hi : (0 : Int) ≤ (i : Int) * dst_pitch :=
          mul_nonneg (Int.ofNat_nonneg i) (by omega)
        simp only [Nat.cast_zero, zero_mul, add_zero]
        omega
    | succ j =>
      have := ih (memcpy dmem dstp smem srcp row_size) (dstp + dst_pitch) (srcp + src_pitch) j x
        (Nat.lt_of_succ_lt_succ hj) hx0 hx
      have e1 : dstp + ((j + 1 : Nat) : Int) * dst_pitch + x = dstp + dst_pitch + (j : Int) * dst_pitch + x := by
        push_cast; ring
      have e2 : srcp + ((j + 1 : Nat) : Int) * src_pitch + x = srcp + src_pitch + (j : Int) * src_pitch + x := by
        push_cast; ring
      rw [e1, e2]
      exact this

/-- The function `BitBlt` copies the `row_size` bytes of each of the `height` rows when the
destination pitch is at least the row size. -/
theorem BitBlt_copied (dmem smem : Mem) (dstp dst_pitch srcp src_pitch row_size height : Int)
    (hp : row_size ≤ dst_pitch) (y x : Int) (hy0 : 0 ≤ y) (hy : y < height)
    (hx0 : 0 ≤ x) (hx : x < row_size) :
    BitBlt dmem dstp dst_pitch smem srcp src_pitch row_size height (dstp + y * dst_pitch + x)
      = smem (srcp + y * src_pitch + x) := by
  have := BitBlt.rows_copied smem dst_pitch src_pitch row_size hp height.toNat dmem dstp srcp
    y.toNat x (by omega) hx0 hx
  rw [Int.toNat_of_nonneg hy0] at this
  exact this

/-- The function `BitBlt` leaves the bytes of a row between the row size and the pitch as they were. -/
theorem BitBlt_padding (dmem smem : Mem) (dstp dst_pitch srcp src_pitch row_size height : Int)
    (hp : row_size ≤ dst_pitch) (y x : Int)
    (hx0 : row_size ≤ x) (hx : x < dst_pitch) :
    BitBlt dmem dstp dst_pitch smem srcp src_pitch row_size height (dstp + y * dst_pitch + x)
      = dmem (dstp + y * dst_pitch + x) := by
  apply BitBlt.rows_frame
  intro j _ hcon
  obtain ⟨h1, h2⟩ := hcon
  have hr : 0 < row_size := by omega
  have hpitch : 0 < dst_pitch := by omega
  rcases lt_trichotomy (j : Int) y with hlt | heq | hgt
  · have : ((j : Int) + 1) * dst_pitch ≤ y * dst_pitch :=
      mul_le_mul_of_nonneg_right (by omega) (le_of_lt hpitch)
    have e : ((j : Int) + 1) * dst_pitch = j * dst_pitch + dst_pitch := by ring
    omega
  · rw [heq] at h2
    omega
  · have : (y + 1) * dst_pitch ≤ (j : Int) * dst_pitch :=
      mul_le_mul_of_nonneg_right (by omega) (le_of_lt hpitch)
    have e : (y + 1) * dst_pitch = y * dst_pitch + dst_pitch := by ring
    omega

theorem planeSelectors_cases (H : Headers) (p : Nat) (sel : Int)
    (h : (planeSelectors H)[p]? = some sel) :
    (p = 0 ∧ sel = H.PLANAR_Y) ∨ (p = 1 ∧ sel = H.PLANAR_U) ∨ (p = 2 ∧ sel = H.PLANAR_V) := by
  unfold planeSelectors at h
  match p, h with
  | 0, h => simp at h; exact Or.inl ⟨rfl, h.symm⟩
  | 1, h => simp at h; exact Or.inr (Or.inl ⟨rfl, h.symm⟩)
  | 2, h => simp at h; exact Or.inr (Or.inr ⟨rfl, h.symm⟩)
  | n + 3, h => simp at h

/-- C4: `write_interleaved_frame` on one or three planes returns, and for every plane `p` whose
destination pitch is at least its row size the destination holds, at every row `y` below the
height and column `x` below the row size, the source byte of the same row and column, and
holds at the columns from the row size up to the pitch what it held before the call. -/
theorem write_interleaved_frame_copies (H : Headers) (hsel : (planeSelectors H).Nodup)
    (src : VSFrameRef) (dst : PVideoFrame) (num_planes : Int)
    (hn : num_planes = 1 ∨ num_planes = 3) :
    ∃ dst', write_interleaved_frame H src dst num_planes = some dst' ∧
      ∀ (p : Nat) (sel : Int), (p : Int) < num_planes → (planeSelectors H)[p]? = some sel →
        (dst.plane sel).GetRowSize ≤ (dst.plane sel).GetPitch →
        (∀ y x : Int, 0 ≤ y → y < (dst.plane sel).GetHeight →
          0 ≤ x → x < (dst.plane sel).GetRowSize →
          (dst'.plane sel).mem ((dst.plane sel).GetWritePtr + y * (dst.plane sel).GetPitch + x)
            = (src.plane p).mem ((src.plane p).getReadPtr + y * (src.plane p).getStride + x)) ∧
        (∀ y x : Int, 0 ≤ y → y < (dst.plane sel).GetHeight →
          (dst.plane sel).GetRowSize ≤ x → x < (dst.plane sel).GetPitch →
          (dst'.plane sel).mem ((dst.plane sel).GetWritePtr + y * (dst.plane sel).GetPitch + x)
            = (dst.plane sel).mem ((dst.plane sel).GetWritePtr + y * (dst.plane sel).GetPitch + x)) := by
  simp only [planeSelectors, List.nodup_cons, List.mem_cons, List.mem_singleton, not_or,
    List.not_mem_nil, not_false_eq_true, List.nodup_nil, and_true] at hsel
  obtain ⟨⟨hYU, hYV⟩, hUV⟩ := hsel
  rcases hn with hn | hn
  · subst hn
    refine ⟨write_interleaved_frame.body src 0 H.PLANAR_Y dst, rfl, ?_⟩
    intro p sel hp hs hpitch
    rcases planeSelectors_cases H p sel hs with ⟨rfl, rfl⟩ | ⟨rfl, rfl⟩ | ⟨rfl, rfl⟩
    · simp only [write_interleaved_frame.body, PVideoFrame.setMem, Function.update_same,
        Nat.cast_zero]
      exact ⟨fun y x hy0 hy hx0 hx => BitBlt_copied _ _ _ _ _ _ _ _ hpitch y x hy0 hy hx0 hx,
        fun y x _ _ hx0 hx => BitBlt_padding _ _ _ _ _ _ _ _ hpitch y x hx0 hx⟩
    · omega
    · omega
  · subst hn
    refine ⟨write_interleaved_frame.body src 2 H.PLANAR_V
      (write_interleaved_frame.body src 1 H.PLANAR_U
        (write_interleaved_frame.body src 0 H.PLANAR_Y dst)), rfl, ?_⟩
    intro p sel hp hs hpitch
    rcases planeSelectors_cases H p sel hs with ⟨rfl, rfl⟩ | ⟨rfl, rfl⟩ | ⟨rfl, rfl⟩
    · simp only [write_interleaved_frame.body, PVideoFrame.setMem, Function.update_same,
        Nat.cast_zero, ne_eq, hYU, hYV, hUV,
        not_false_eq_true, Function.update_noteq, Ne.symm hYU, Ne.symm hYV, Ne.symm hUV]
      exact ⟨fun y x hy0 hy hx0 hx => BitBlt_copied _ _ _ _ _ _ _ _ hpitch y x hy0 hy hx0 hx,
        fun y x _ _ hx0 hx => BitBlt_padding _ _ _ _ _ _ _ _ hpitch y x hx0 hx⟩
    · simp only [write_interleaved_frame.body, PVideoFrame.setMem, Function.update_same,
        Nat.cast_one, ne_eq, hYU, hYV, hUV,
        not_false_eq_true, Function.update_noteq, Ne.symm hYU, Ne.symm hYV, Ne.symm hUV]
      exact ⟨fun y x hy0 hy hx0 hx => BitBlt_copied _ _ _ _ _ _ _ _ hpitch y x hy0 hy hx0 hx,
        fun y x _ _ hx0 hx => BitBlt_padding _ _ _ _ _ _ _ _ hpitch y x hx0 hx⟩
    · simp only [write_interleaved_frame.body, PVideoFrame.setMem, Function.update_same,
        Nat.cast_ofNat, ne_eq, hYU, hYV, hUV,
        not_false_eq_true, Function.update_noteq, Ne.symm hYU, Ne.symm hYV, Ne.symm hUV]
      exact ⟨fun y x hy0 hy hx0 hx => BitBlt_copied _ _ _ _ _ _ _ _ hpitch y x hy0 hy hx0 hx,
        fun y x _ _ hx0 hx => BitBlt_padding _ _ _ _ _ _ _ _ hpitch y x hx0 hx⟩

/-! ## Stacked split: theorems -/

theorem mask_apply (i : Fin 16) :
    write_stacked_frame.mask i = if i.val % 2 = 0 then 255 else 0 := by
  fin_cases i <;> rfl

theorem byte_and_255 (b : Byte) : byte ((255 : Byte).val &&& b.val) = b := by
  have h : (255 : Byte).val = 2 ^ 8 - 1 := rfl
  rw [h, Nat.and_comm, Nat.and_pow_two_sub_one_eq_mod]
  apply Fin.ext
  simp only [byte, Fin.ofNat, Fin.val_mk]
  have := b.isLt
  omega

theorem and_mask_apply (v : M128) (i : Fin 16) :
    _mm_and_si128 write_stacked_frame.mask v i = if i.val % 2 = 0 then v i else 0 := by
  unfold _mm_and_si128
  rw [mask_apply]
  split_ifs with h
  · exact byte_and_255 (v i)
  · simp [byte]
    rfl

theorem lane16_and_mask (v : M128) (j : Nat) :
    lane16 (_mm_and_si128 write_stacked_frame.mask v) j = (v (Fin.ofNat (2 * j))).val := by
  unfold lane16
  rw [and_mask_apply, and_mask_apply]
  have h1 : (Fin.ofNat (2 * j) : Fin 16).val % 2 = 0 := by
    simp only [Fin.ofNat, Fin.val_mk]; omega
  have h2 : ¬ (Fin.ofNat (2 * j + 1) : Fin 16).val % 2 = 0 := by
    simp only [Fin.ofNat, Fin.val_mk]; omega
  rw [if_pos h1, if_neg h2]
  simp

theorem saturateU8_byte (b : Byte) : saturateU8 (toInt16 b.val) = b := by
  have hb := b.isLt
  have h1 : b.val % 65536 = b.val := Nat.mod_eq_of_lt (by omega)
  have ht : toInt16 b.val = (b.val : Int) := by
    unfold toInt16
    rw [h1, if_pos (by omega)]
  rw [ht]
  unfold saturateU8
  rw [if_neg (by omega), if_neg (by omega)]
  apply Fin.ext
  simp only [byte, Fin.ofNat, Int.toNat_ofNat, Fin.val_mk]
  omega

/-- Packing two masked registers keeps the even bytes of the first, then those of the second. -/
theorem packus_and_mask (v0 v1 : M128) (i : Fin 16) :
    _mm_packus_epi16 (_mm_and_si128 write_stacked_frame.mask v0)
        (_mm_and_si128 write_stacked_frame.mask v1) i
      = if i.val < 8 then v0 (Fin.ofNat (2 * i.val)) else v1 (Fin.ofNat (2 * (i.val - 8))) := by
  unfold _mm_packus_epi16
  simp only [lane16_and_mask, saturateU8_byte]

theorem srli_si128_one_even (v : M128) (j : Nat) (hj : j < 8) :
    _mm_srli_si128 v 1 (Fin.ofNat (2 * j)) = v (Fin.ofNat (2 * j + 1)) := by
  unfold _mm_srli_si128
  have h : (Fin.ofNat (2 * j) : Fin 16).val = 2 * j := by
    simp only [Fin.ofNat, Fin.val_mk]; omega
  rw [h, if_pos (by omega)]

/-- One chunk with aligned pointers, the 32 source bytes inside the source buffer and the two
blocks of 16 destination bytes inside the destination buffer: the sixteen bytes at column
`x` of the upper row receive the odd source bytes `2c + 1`, those of the lower row the even
source bytes `2c`. -/
theorem write_stacked_frame.chunk_eq (s : VSPlane) (d : AvsPlane) (srcp dstp0 dstp1 x : Int)
    (dmem : Mem)
    (hs : srcp % 16 = 0) (hd0 : dstp0 % 16 = 0) (hd1 : dstp1 % 16 = 0) (hx : x % 16 = 0)
    (hx0 : 0 ≤ x) (hx1 : x < 1073741824)
    (hsb : s.getReadPtr ≤ srcp + 2 * x ∧ srcp + 2 * x + 32 ≤ s.getReadPtr + s.size)
    (hb0 : d.GetWritePtr ≤ dstp0 + x ∧ dstp0 + x + 16 ≤ d.GetWritePtr + d.size)
    (hb1 : d.GetWritePtr ≤ dstp1 + x ∧ dstp1 + x + 16 ≤ d.GetWritePtr + d.size) :
    write_stacked_frame.chunk s d srcp dstp0 dstp1 x dmem = some (fun a =>
      if dstp1 + x ≤ a ∧ a < dstp1 + x + 16 then s.mem (srcp + 2 * (a - dstp1))
      else if dstp0 + x ≤ a ∧ a < dstp0 + x + 16 then s.mem (srcp + 2 * (a - dstp0) + 1)
      else dmem a) := by
  have hw : wrap32 (2 * x) = 2 * x := wrap32_eq_self (by omega) (by omega)
  unfold write_stacked_frame.chunk
  rw [hw]
  simp only [_mm_load_si128, _mm_store_si128]
  rw [if_pos (by omega), if_pos (by omega)]
  simp only [Option.some_bind, Option.bind_eq_bind]
  rw [if_pos (by omega)]
  simp only [Option.some_bind, Option.bind_eq_bind]
  rw [if_pos (by omega)]
  congr 1
  funext a
  by_cases h1 : dstp1 + x ≤ a ∧ a < dstp1 + x + 16
  · rw [if_pos h1, if_pos h1, packus_and_mask]
    have hv : (Fin.ofNat (a - (dstp1 + x)).toNat : Fin 16).val = (a - (dstp1 + x)).toNat := by
      simp only [Fin.ofNat, Fin.val_mk]; omega
    rw [hv]
    split_ifs with h8
    · congr 1
      simp only [Fin.ofNat, Fin.val_mk]
      omega
    · congr 1
      simp only [Fin.ofNat, Fin.val_mk]
      omega
  · rw [if_neg h1, if_neg h1]
    by_cases h0 : dstp0 + x ≤ a ∧ a < dstp0 + x + 16
    · rw [if_pos h0, if_pos h0, packus_and_mask]
      have hv : (Fin.ofNat (a - (dstp0 + x)).toNat : Fin 16).val = (a - (dstp0 + x)).toNat := by
        simp only [Fin.ofNat, Fin.val_mk]; omega
      rw [hv]
      split_ifs with h8
      · rw [srli_si128_one_even _ _ h8]
        congr 1
        simp only [Fin.ofNat, Fin.val_mk]
        omega
      · rw [srli_si128_one_even _ _ (by omega)]
        congr 1
        simp only [Fin.ofNat, Fin.val_mk]
        omega
    · rw [if_neg h0, if_neg h0]

/-- The loop over `x` of one row, with aligned pointers, the lower row at least `P` bytes after
the upper one, `P` a multiple of 16 not below the row size, and the chunks of the row, `C`
columns, inside the two buffers: it returns, touches only the two rows from column `x` to
column `P`, and splits every sample from column `x` on. -/
theorem write_stacked_frame.row_spec (s : VSPlane) (d : AvsPlane)
    (srcp dstp0 dstp1 rowsize P C : Int)
    (hs : srcp % 16 = 0) (hd0 : dstp0 % 16 = 0) (hd1 : dstp1 % 16 = 0)
    (hP : P % 16 = 0) (hrP : rowsize ≤ P) (hsep : dstp0 + P ≤ dstp1)
    (hr : rowsize ≤ 1073741824)
    (hC : C % 16 = 0) (hrC : rowsize ≤ C)
    (hsb : 0 < rowsize → s.getReadPtr ≤ srcp ∧ srcp + 2 * C ≤ s.getReadPtr + s.size)
    (hb0 : 0 < rowsize → d.GetWritePtr ≤ dstp0 ∧ dstp0 + C ≤ d.GetWritePtr + d.size)
    (hb1 : 0 < rowsize → d.GetWritePtr ≤ dstp1 ∧ dstp1 + C ≤ d.GetWritePtr + d.size) :
    ∀ (fuel : Nat) (x : Int) (dmem : Mem), x % 16 = 0 → 0 ≤ x → (rowsize - x).toNat < fuel →
      ∃ m', write_stacked_frame.row s d srcp dstp0 dstp1 rowsize fuel x dmem = some m' ∧
        (∀ a, ¬(dstp0 + x ≤ a ∧ a < dstp0 + P) → ¬(dstp1 + x ≤ a ∧ a < dstp1 + P) →
          m' a = dmem a) ∧
        (∀ c, x ≤ c → c < rowsize →
          m' (dstp0 + c) = s.mem (srcp + 2 * c + 1) ∧ m' (dstp1 + c) = s.mem (srcp + 2 * c)) := by
  intro fuel
  induction fuel with
  | zero => intro x dmem _ _ h; exact absurd h (Nat.not_lt_zero _)
  | succ fuel ih =>
    intro x dmem hx16 hx0 hfuel
    unfold write_stacked_frame.row
    by_cases hlt : x < rowsize
    · have hpos : 0 < rowsize := by omega
      have hsb' := hsb hpos
      have hb0' := hb0 hpos
      have hb1' := hb1 hpos
      rw [if_pos hlt, write_stacked_frame.chunk_eq s d srcp dstp0 dstp1 x dmem hs hd0 hd1 hx16
        hx0 (by omega) ⟨by omega, by omega⟩ ⟨by omega, by omega⟩ ⟨by omega, by omega⟩]
      have hw : wrap32 (x + 16) = x + 16 := wrap32_eq_self (by omega) (by omega)
      rw [hw, Option.some_bind]
      obtain ⟨m', hm', hframe, hcells⟩ := ih (x + 16) _ (by omega) (by omega) (by omega)
      refine ⟨m', hm', ?_, ?_⟩
      · intro a h0 h1
        rw [hframe a (by omega) (by omega)]
        show (if dstp1 + x ≤ a ∧ a < dstp1 + x + 16 then _ else _) = _
        rw [if_neg (by omega), if_neg (by omega)]
      · intro c hc0 hc1
        by_cases hc : c < x + 16
        · constructor
          · rw [hframe (dstp0 + c) (by omega) (by omega)]
            show (if dstp1 + x ≤ dstp0 + c ∧ dstp0 + c < dstp1 + x + 16 then _ else _) = _
            rw [if_neg (by omega), if_pos (by omega)]
            congr 1
            omega
          · rw [hframe (dstp1 + c) (by omega) (by omega)]
            show (if dstp1 + x ≤ dstp1 + c ∧ dstp1 + c < dstp1 + x + 16 then _ else _) = _
            rw [if_pos (by omega)]
            congr 1
            omega
        · exact hcells c (by omega) hc1
    · rw [if_neg hlt]
      exact ⟨dmem, rfl, fun _ _ _ => rfl, fun c hc0 hc1 => absurd hc1 (by omega)⟩

/-- The loop over `y` with `k` rows left, aligned pointers and strides, the lower region at
least `k` rows after the upper one, and the chunks of the `k` rows inside the two buffers:
it returns, touches only the `k` rows of the two regions, and splits every sample of the
`k` rows. -/
theorem write_stacked_frame.rows_spec (s : VSPlane) (d : AvsPlane)
    (src_pitch dst_pitch rowsize height C : Int)
    (hsp : src_pitch % 16 = 0) (hdp : dst_pitch % 16 = 0)
    (hr0 : 0 ≤ rowsize) (hrP : rowsize ≤ dst_pitch) (hr : rowsize ≤ 1073741824)
    (hh : height < 2147483648) (hsp0 : 0 ≤ src_pitch)
    (hC : C % 16 = 0) (hrC : rowsize ≤ C) :
    ∀ (fuel k : Nat) (y srcp dstp0 dstp1 : Int) (dmem : Mem),
      srcp % 16 = 0 → dstp0 % 16 = 0 → dstp1 % 16 = 0 → 0 ≤ y → y + k = height → k < fuel →
      dstp0 + k * dst_pitch ≤ dstp1 →
      (0 < rowsize → 0 < k → s.getReadPtr ≤ srcp ∧
        srcp + ((k : Int) - 1) * src_pitch + 2 * C ≤ s.getReadPtr + s.size) →
      (0 < rowsize → 0 < k → d.GetWritePtr ≤ dstp0 ∧
        dstp1 + ((k : Int) - 1) * dst_pitch + C ≤ d.GetWritePtr + d.size) →
      ∃ m', write_stacked_frame.rows s d src_pitch dst_pitch rowsize height fuel y srcp dstp0
          dstp1 dmem = some m' ∧
        (∀ a, ¬(dstp0 ≤ a ∧ a < dstp0 + k * dst_pitch) →
          ¬(dstp1 ≤ a ∧ a < dstp1 + k * dst_pitch) → m' a = dmem a) ∧
        (∀ (j : Nat) (c : Int), j < k → 0 ≤ c → c < rowsize →
          m' (dstp0 + j * dst_pitch + c) = s.mem (srcp + j * src_pitch + 2 * c + 1) ∧
          m' (dstp1 + j * dst_pitch + c) = s.mem (srcp + j * src_pitch + 2 * c)) := by
  intro fuel
  induction fuel with
  | zero => intro k _ _ _ _ _ _ _ _ _ _ h; exact absurd h (Nat.not_lt_zero _)
  | succ fuel ih =>
    intro k y srcp dstp0 dstp1 dmem hs hd0 hd1 hy0 hyk hfuel hsep hsb hdb
    unfold write_stacked_frame.rows
    cases k with
    | zero =>
      rw [if_neg (by simp at hyk; omega)]
      exact ⟨dmem, rfl, fun _ _ _ => rfl, fun j _ hj => absurd hj (Nat.not_lt_zero j)⟩
    | succ k =>
      have hk0 : (0 : Int) ≤ (k : Int) * dst_pitch := mul_nonneg (Int.ofNat_nonneg k) (by omega)
      have hks : (0 : Int) ≤ (k : Int) * src_pitch := mul_nonneg (Int.ofNat_nonneg k) hsp0
      have hk1 : ((k + 1 : Nat) : Int) * dst_pitch = (k : Int) * dst_pitch + dst_pitch := by
        push_cast; ring
      have hks1 : (((k + 1 : Nat) : Int) - 1) * src_pitch = (k : Int) * src_pitch := by
        push_cast; ring
      have hkd1 : (((k + 1 : Nat) : Int) - 1) * dst_pitch = (k : Int) * dst_pitch := by
        push_cast; ring
      have hksub : ((k : Int) - 1) * src_pitch = (k : Int) * src_pitch - src_pitch := by ring
      have hkdub : ((k : Int) - 1) * dst_pitch = (k : Int) * dst_pitch - dst_pitch := by ring
      rw [hk1] at hsep
      rw [hks1] at hsb
      rw [hkd1] at hdb
      rw [if_pos (by push_cast at hyk; omega)]
      obtain ⟨m1, hm1, hframe1, hcells1⟩ :=
        write_stacked_frame.row_spec s d srcp dstp0 dstp1 rowsize dst_pitch C hs hd0 hd1 hdp hrP
          (by omega) hr hC hrC
          (fun hpos => by have := hsb hpos (Nat.succ_pos k); omega)
          (fun hpos => by have := hdb hpos (Nat.succ_pos k); omega)
          (fun hpos => by have := hdb hpos (Nat.succ_pos k); omega)
          (rowsize.toNat + 1) 0 dmem (by decide) (le_refl _) (by omega)
      have hw : wrap32 (y + 1) = y + 1 := wrap32_eq_self (by omega) (by push_cast at hyk; omega)
      rw [hm1, Option.some_bind, hw]
      obtain ⟨m', hm', hframe, hcells⟩ := ih k (y + 1) (srcp + src_pitch) (dstp0 + dst_pitch)
        (dstp1 + dst_pitch) m1 (by omega) (by omega) (by omega) (by omega)
        (by push_cast at hyk; omega) (by omega) (by omega)
        (fun hpos hk => by have := hsb hpos (Nat.succ_pos k); rw [hksub]; omega)
        (fun hpos hk => by have := hdb hpos (Nat.succ_pos k); rw [hkdub]; omega)
      refine ⟨m', hm', ?_, ?_⟩
      · intro a h0 h1
        rw [hk1] at h0 h1
        rw [hframe a (by omega) (by omega), hframe1 a (by omega) (by omega)]
      · intro j c hj hc0 hc1
        cases j with
        | zero =>
          simp only [Nat.cast_zero, zero_mul, add_zero]
          constructor
          · rw [hframe (dstp0 + c) (by omega) (by omega)]
            exact (hcells1 c hc0 hc1).1
          · rw [hframe (dstp1 + c) (by omega) (by omega)]
            exact (hcells1 c hc0 hc1).2
        | succ j =>
          have := hcells j c (Nat.lt_of_succ_lt_succ hj) hc0 hc1
          have e1 : dstp0 + ((j + 1 : Nat) : Int) * dst_pitch + c
              = dstp0 + dst_pitch + (j : Int) * dst_pitch + c := by push_cast; ring
          have e2 : dstp1 + ((j + 1 : Nat) : Int) * dst_pitch + c
              = dstp1 + dst_pitch + (j : Int) * dst_pitch + c := by push_cast; ring
          have e3 : srcp + ((j + 1 : Nat) : Int) * src_pitch + 2 * c
              = srcp + src_pitch + (j : Int) * src_pitch + 2 * c := by push_cast; ring
          rw [e1, e2, e3]
          exact this

theorem tdiv_two (h : Int) : Int.tdiv h 2 = if 0 ≤ h then h / 2 else -((-h) / 2) := by
  split_ifs with h0
  · exact Int.tdiv_eq_ediv h0 (by decide)
  · have e : h = -(-h) := by omega
    rw [e, Int.neg_tdiv, Int.tdiv_eq_ediv (by omega) (by decide)]
    simp

/-- The chunks of a row cover a multiple of 16 columns, not less than the row size. -/
theorem chunked_spec (rowsize : Int) :
    chunked rowsize % 16 = 0 ∧ rowsize ≤ chunked rowsize ∧ chunked rowsize < rowsize + 16 := by
  unfold chunked
  omega

/-- The body of the plane loop on a pair of planes that is ready for it returns, and every sample
of the upper half of the rows is split. -/
theorem write_stacked_frame.plane_spec (s : VSPlane) (d : AvsPlane) (h : StackedReady s d) :
    ∃ m', write_stacked_frame.plane s d = some m' ∧
      ∀ y x : Int, 0 ≤ y → y < Int.tdiv d.GetHeight 2 → 0 ≤ x → x < d.GetRowSize →
        m' (d.GetWritePtr + y * d.GetPitch + x)
          = s.mem (s.getReadPtr + y * s.getStride + 2 * x + 1) ∧
        m' (d.GetWritePtr + (Int.tdiv d.GetHeight 2 + y) * d.GetPitch + x)
          = s.mem (s.getReadPtr + y * s.getStride + 2 * x) := by
  obtain ⟨hsa, hsta, hda, hpa, hr0, hpg, hsg, hsi, hhi, hsz, hss, hds⟩ := h
  obtain ⟨hC, hrC, _⟩ := chunked_spec d.GetRowSize
  unfold write_stacked_frame.plane
  simp only
  by_cases hneg : 0 ≤ Int.tdiv d.GetHeight 2
  · have hprod0 : 0 ≤ d.GetPitch * Int.tdiv d.GetHeight 2 := mul_nonneg (by omega) hneg
    have hw : wrap32 (d.GetPitch * Int.tdiv d.GetHeight 2) = d.GetPitch * Int.tdiv d.GetHeight 2 :=
      wrap32_eq_self (by omega) hsz
    have hdvd : (16 : Int) ∣ d.GetPitch * Int.tdiv d.GetHeight 2 :=
      Dvd.dvd.mul_right (Int.dvd_of_emod_eq_zero hpa) _
    have hhalf : Int.tdiv d.GetHeight 2 < 2147483648 := by
      rw [tdiv_two]
      split_ifs <;> omega
    rw [hw]
    have hcast : ((Int.tdiv d.GetHeight 2).toNat : Int) = Int.tdiv d.GetHeight 2 :=
      Int.toNat_of_nonneg hneg
    have hlow : (2 * Int.tdiv d.GetHeight 2 - 1) * d.GetPitch
        = d.GetPitch * Int.tdiv d.GetHeight 2 + (Int.tdiv d.GetHeight 2 - 1) * d.GetPitch := by
      ring
    obtain ⟨m', hm', _, hcells⟩ := write_stacked_frame.rows_spec s d s.getStride d.GetPitch
      d.GetRowSize (Int.tdiv d.GetHeight 2) (chunked d.GetRowSize) hsta hpa hr0 hpg (by omega)
      hhalf (by omega) hC hrC
      ((Int.tdiv d.GetHeight 2).toNat + 1) (Int.tdiv d.GetHeight 2).toNat 0 s.getReadPtr
      d.GetWritePtr (d.GetWritePtr + d.GetPitch * Int.tdiv d.GetHeight 2) d.mem hsa hda
      (by omega) (le_refl _) (by omega) (by omega) (by rw [hcast, mul_comm])
      (fun hpos hk => by
        rw [hcast]
        have := hss (by omega) hpos
        omega)
      (fun hpos hk => by
        rw [hcast]
        have := hds (by omega) hpos
        rw [hlow] at this
        omega)
    refine ⟨m', hm', ?_⟩
    intro y x hy0 hy hx0 hx
    have := hcells y.toNat x (by omega) hx0 hx
    rw [Int.toNat_of_nonneg hy0] at this
    have e : d.GetWritePtr + (Int.tdiv d.GetHeight 2 + y) * d.GetPitch + x
        = d.GetWritePtr + d.GetPitch * Int.tdiv d.GetHeight 2 + y * d.GetPitch + x := by ring
    rw [e]
    exact this
  · refine ⟨d.mem, ?_, ?_⟩
    · unfold write_stacked_frame.rows
      rw [if_neg (by omega)]
    · intro y x hy0 hy
      omega

theorem write_stacked_frame.loop_step (H : Headers) (src : VSFrameRef) (num_planes : Int)
    (fuel : Nat) (p sel : Int) (dst : PVideoFrame) (m : Mem) (hp : p < num_planes)
    (hs : (planeSelectors H)[p.toNat]? = some sel)
    (hm : write_stacked_frame.plane (src.plane p) (dst.plane sel) = some m) :
    write_stacked_frame.loop H src num_planes (fuel + 1) p dst
      = write_stacked_frame.loop H src num_planes fuel (wrap32 (p + 1)) (dst.setMem sel m) := by
  rw [write_stacked_frame.loop, if_pos hp, hs]
  simp only [hm, Option.some_bind]

theorem write_stacked_frame.loop_done (H : Headers) (src : VSFrameRef) (num_planes : Int)
    (fuel : Nat) (p : Int) (dst : PVideoFrame) (hp : ¬ p < num_planes) :
    write_stacked_frame.loop H src num_planes (fuel + 1) p dst = some dst := by
  rw [write_stacked_frame.loop, if_neg hp]

/-- A sample that is `(high << 8) | low` has `low` as its first byte and `high` as its second. -/
theorem sample16_bytes (b0 b1 high low : Byte)
    (h : b0.val + 256 * b1.val = high.val <<< 8 ||| low.val) : b1 = high ∧ b0 = low := by
  have e : high.val <<< 8 ||| low.val = 256 * high.val + low.val := by
    rw [Nat.shiftLeft_eq, Nat.mul_comm]
    exact (Nat.mul_add_lt_is_or (i := 8) low.isLt high.val).symm
  rw [e] at h
  have h0 := b0.isLt
  have h1 := low.isLt
  constructor <;> apply Fin.ext <;> omega

/-- C1 (amended): on one or three planes that are each ready for the aligned loads and stores
(pointers and strides multiples of 16, pitch at least the row size, stride at least twice the
row size, values in `int` range, the source buffer reaching to the end of the last 32 bytes
loaded and the destination buffer to the end of the last 16 bytes stored),
`write_stacked_frame` returns, and for a source whose 16-bit sample at row `y`, column `x` of
plane `p` is `(high p y x << 8) | low p y x`, every row `y` below half the destination height
and every column `x` below the row size, also in a last partial chunk, holds `high p y x` in
the upper half and `low p y x` at row `half + y`. -/
theorem write_stacked_frame_splits (H : Headers) (hsel : (planeSelectors H).Nodup)
    (src : VSFrameRef) (dst : PVideoFrame) (num_planes : Int)
    (hn : num_planes = 1 ∨ num_planes = 3)
    (hready : ∀ (p : Nat) (sel : Int), (p : Int) < num_planes →
      (planeSelectors H)[p]? = some sel → StackedReady (src.plane p) (dst.plane sel))
    (high low : Nat → Int → Int → Byte)
    (hsample : ∀ (p : Nat) (y x : Int),
      (src.plane p).sample16 y x = (high p y x).val <<< 8 ||| (low p y x).val) :
    ∃ dst', write_stacked_frame H src dst num_planes = some dst' ∧
      ∀ (p : Nat) (sel : Int), (p : Int) < num_planes → (planeSelectors H)[p]? = some sel →
        ∀ y x : Int, 0 ≤ y → y < Int.tdiv (dst.plane sel).GetHeight 2 →
          0 ≤ x → x < (dst.plane sel).GetRowSize →
          (dst'.plane sel).mem ((dst.plane sel).GetWritePtr + y * (dst.plane sel).GetPitch + x)
            = high p y x ∧
          (dst'.plane sel).mem ((dst.plane sel).GetWritePtr
              + (Int.tdiv (dst.plane sel).GetHeight 2 + y) * (dst.plane sel).GetPitch + x)
            = low p y x := by
  have hsel' := hsel
  simp only [planeSelectors, List.nodup_cons, List.mem_cons, List.mem_singleton, not_or,
    List.not_mem_nil, not_false_eq_true, List.nodup_nil, and_true] at hsel'
  obtain ⟨⟨hYU, hYV⟩, hUV⟩ := hsel'
  have key : ∀ (p : Nat) (s : VSPlane) (d : AvsPlane) (m : Mem), s = src.plane p →
      (∀ y x : Int, 0 ≤ y → y < Int.tdiv d.GetHeight 2 → 0 ≤ x → x < d.GetRowSize →
        m (d.GetWritePtr + y * d.GetPitch + x)
          = s.mem (s.getReadPtr + y * s.getStride + 2 * x + 1) ∧
        m (d.GetWritePtr + (Int.tdiv d.GetHeight 2 + y) * d.GetPitch + x)
          = s.mem (s.getReadPtr + y * s.getStride + 2 * x)) →
      ∀ y x : Int, 0 ≤ y → y < Int.tdiv d.GetHeight 2 → 0 ≤ x → x < d.GetRowSize →
        m (d.GetWritePtr + y * d.GetPitch + x) = high p y x ∧
        m (d.GetWritePtr + (Int.tdiv d.GetHeight 2 + y) * d.GetPitch + x) = low p y x := by
    intro p s d m hs hc y x hy0 hy hx0 hx
    obtain ⟨c1, c2⟩ := hc y x hy0 hy hx0 hx
    have hb := sample16_bytes _ _ _ _ (hsample p y x)
    rw [c1, c2, hs]
    exact hb
  rcases hn with hn | hn
  · subst hn
    obtain ⟨m0, hm0, hc0⟩ := write_stacked_frame.plane_spec (src.plane ((0 : Nat) : Int))
      (dst.plane H.PLANAR_Y) (hready 0 H.PLANAR_Y (by decide) rfl)
    refine ⟨dst.setMem H.PLANAR_Y m0, ?_, ?_⟩
    · unfold write_stacked_frame
      rw [show (1 : Int).toNat + 1 = 1 + 1 from rfl,
        write_stacked_frame.loop_step H src 1 1 0 H.PLANAR_Y dst m0 (by decide) rfl hm0,
        write_stacked_frame.loop_done H src 1 0 _ _ (by decide)]
    · intro p sel hp hs
      rcases planeSelectors_cases H p sel hs with ⟨rfl, rfl⟩ | ⟨rfl, rfl⟩ | ⟨rfl, rfl⟩
      · simp only [PVideoFrame.setMem, Function.update_same]
        exact key 0 _ _ m0 rfl hc0
      · omega
      · omega
  · subst hn
    obtain ⟨m0, hm0, hc0⟩ := write_stacked_frame.plane_spec (src.plane ((0 : Nat) : Int))
      (dst.plane H.PLANAR_Y) (hready 0 H.PLANAR_Y (by decide) rfl)
    obtain ⟨m1, hm1, hc1⟩ := write_stacked_frame.plane_spec (src.plane ((1 : Nat) : Int))
      (dst.plane H.PLANAR_U) (hready 1 H.PLANAR_U (by decide) rfl)
    obtain ⟨m2, hm2, hc2⟩ := write_stacked_frame.plane_spec (src.plane ((2 : Nat) : Int))
      (dst.plane H.PLANAR_V) (hready 2 H.PLANAR_V (by decide) rfl)
    have hU : (dst.setMem H.PLANAR_Y m0).plane H.PLANAR_U = dst.plane H.PLANAR_U := by
      simp only [PVideoFrame.setMem, ne_eq, Ne.symm hYU, not_false_eq_true,
        Function.update_noteq]
    have hV : ((dst.setMem H.PLANAR_Y m0).setMem H.PLANAR_U m1).plane H.PLANAR_V
        = dst.plane H.PLANAR_V := by
      simp only [PVideoFrame.setMem, ne_eq, Ne.symm hYV, Ne.symm hUV, not_false_eq_true,
        Function.update_noteq]
    refine ⟨((dst.setMem H.PLANAR_Y m0).setMem H.PLANAR_U m1).setMem H.PLANAR_V m2, ?_, ?_⟩
    · unfold write_stacked_frame
      rw [show (3 : Int).toNat + 1 = 3 + 1 from rfl,
        write_stacked_frame.loop_step H src 3 3 0 H.PLANAR_Y dst m0 (by decide) rfl hm0,
        show wrap32 (0 + 1) = 1 from by decide,
        write_stacked_frame.loop_step H src 3 2 1 H.PLANAR_U _ m1 (by decide) rfl
          (by rw [hU]; exact hm1),
        show wrap32 (1 + 1) = 2 from by decide,
        write_stacked_frame.loop_step H src 3 1 2 H.PLANAR_V _ m2 (by decide) rfl
          (by rw [hV]; exact hm2),
        show wrap32 (2 + 1) = 3 from by decide,
        write_stacked_frame.loop_done H src 3 0 _ _ (by decide)]
    · intro p sel hp hs
      rcases planeSelectors_cases H p sel hs with ⟨rfl, rfl⟩ | ⟨rfl, rfl⟩ | ⟨rfl, rfl⟩
      · simp only [PVideoFrame.setMem, Function.update_same, ne_eq, hYU, hYV, hUV,
          not_false_eq_true, Function.update_noteq, Ne.symm hYU, Ne.symm hYV, Ne.symm hUV]
        exact key 0 _ _ m0 rfl hc0
      · simp only [PVideoFrame.setMem, Function.update_same, ne_eq, hYU, hYV, hUV,
          not_false_eq_true, Function.update_noteq, Ne.symm hYU, Ne.symm hYV, Ne.symm hUV]
        exact key 1 _ _ m1 rfl hc1
      · simp only [PVideoFrame.setMem, Function.update_same, ne_eq, hYU, hYV, hUV,
          not_false_eq_true, Function.update_noteq, Ne.symm hYU, Ne.symm hYV, Ne.symm hUV]
        exact key 2 _ _ m2 rfl hc2

/-! ## The session: theorems -/

theorem bind_ok_inv {α β : Type} {x : Except Abort α} {f : α → Except Abort β} {b : β}
    (h : x >>= f = Except.ok b) : ∃ a, x = Except.ok a ∧ f a = Except.ok b := by
  cases x with
  | error e => cases h
  | ok a => exact ⟨a, rfl, h⟩

theorem ctor_init_ok {w : World} {mode : String} {self s : VapourSource}
    (h : VapourSource.ctor_init w mode self = Except.ok s) : w.vseval_init ≠ 0 := by
  unfold VapourSource.ctor_init at h
  simp only [ThrowError] at h
  split_ifs at h with h0
  exact h0

theorem ctor_vsapi_ok {w : World} {mode : String} {self s : VapourSource}
    (h : VapourSource.ctor_vsapi w mode self = Except.ok s) : w.vseval_getVSApi = true := by
  unfold VapourSource.ctor_vsapi at h
  simp only [ThrowError] at h
  split_ifs at h with h0
  simpa using h0

theorem convert_ok {w : World} {events : List Event}
    (h : (convert_ansi_to_utf8 w events).1 ≠ false) :
    w.malloc_wide = true ∧ w.malloc_utf8 = true := by
  unfold convert_ansi_to_utf8 at h
  split_ifs at h with h1 h2
  · simp at h
  · simp at h
  · simp at h1 h2
    exact ⟨h1, h2⟩

theorem ctor_script_ok {w : World} {source mode : String} {self s : VapourSource}
    (h : VapourSource.ctor_script w source mode self = Except.ok s) :
    (mode = "VSImport" → get_filesize w source ≠ 0 ∧ get_filesize w source ≤ 16 * 1024 * 1024 ∧
      w.calloc = true ∧ w.fopen source = true) ∧
    w.malloc_wide = true ∧ w.malloc_utf8 = true := by
  unfold VapourSource.ctor_script at h
  simp only [ThrowError] at h
  split_ifs at h with hm h0 h1 h2 h3 h4 h5
  · have := convert_ok h4
    simp at h2 h3
    exact ⟨fun _ => ⟨h0, by omega, h2, h3⟩, this⟩
  · have := convert_ok h5
    exact ⟨fun hm' => absurd hm' hm, this⟩

theorem ctor_evaluate_ok {w : World} {mode : String} {self s : VapourSource}
    (h : VapourSource.ctor_evaluate w mode self = Except.ok s) : w.vseval_evaluateScript = 0 := by
  by_cases h0 : w.vseval_evaluateScript = 0
  · exact h0
  · simp [VapourSource.ctor_evaluate, ThrowError, h0] at h

theorem ctor_output_ok {w : World} {index : Int} {mode : String} {self s : VapourSource}
    (h : VapourSource.ctor_output w index mode self = Except.ok s) :
    w.vseval_getOutput index = true := by
  by_cases h0 : w.vseval_getOutput index = true
  · exact h0
  · simp [VapourSource.ctor_output, ThrowError, h0] at h

/-- What a returning run of the checks on the clip tells about the clip and the object. -/
theorem ctor_clip_ok {H : Headers} {w : World} {stacked : Bool} {mode : String}
    {self s : VapourSource} (h : VapourSource.ctor_clip H w stacked mode self = Except.ok s) :
    w.getVideoInfo.numFrames ≠ 0 ∧ w.getVideoInfo.width ≠ 0 ∧ w.getVideoInfo.height ≠ 0 ∧
    w.getVideoInfo.fpsNum ≠ 0 ∧ w.getVideoInfo.fpsNum ≤ 4294967295 ∧
    w.getVideoInfo.fpsDen ≤ 4294967295 ∧
    ∃ format pixel_type, w.getVideoInfo.format = some format ∧
      get_avs_pixel_type H format.id = some pixel_type ∧ pixel_type ≠ H.CS_UNKNOWN ∧
      s.vsvi = some w.getVideoInfo ∧
      s.vi.pixel_type = pixel_type ∧
      s.vi.width = shl32 w.getVideoInfo.width
        (wrap32 ((if H.IsPlanar pixel_type then wrap32 (format.bytesPerSample - 1) else 0)
          * (if stacked then 0 else 1))) ∧
      s.vi.height = shl32 w.getVideoInfo.height
        (wrap32 ((if H.IsPlanar pixel_type then wrap32 (format.bytesPerSample - 1) else 0)
          * (if stacked then 1 else 0))) ∧
      s.vi.fps_numerator = toUnsigned w.getVideoInfo.fpsNum ∧
      s.vi.fps_denominator = toUnsigned w.getVideoInfo.fpsDen ∧
      s.vi.num_frames = w.getVideoInfo.numFrames ∧
      s.func_write_frame =
        (if (if H.IsPlanar pixel_type then wrap32 (format.bytesPerSample - 1) else 0) ≠ 0
            ∧ stacked = true
          then some WriteFrame.write_stacked_frame
          else some WriteFrame.write_interleaved_frame) := by
  by_cases h0 : w.getVideoInfo.numFrames = 0
  · simp [VapourSource.ctor_clip, ThrowError, h0] at h
  cases hfmt : w.getVideoInfo.format with
  | none => simp [VapourSource.ctor_clip, ThrowError, h0, hfmt] at h
  | some format =>
    by_cases h1 : w.getVideoInfo.width = 0 ∨ w.getVideoInfo.height = 0
    · simp [VapourSource.ctor_clip, ThrowError, h0, hfmt, h1] at h
    by_cases h2 : w.getVideoInfo.fpsNum = 0
    · simp [VapourSource.ctor_clip, ThrowError, h0, hfmt, h1, h2] at h
    by_cases h3 : w.getVideoInfo.fpsNum > UINT_MAX
    · simp [VapourSource.ctor_clip, ThrowError, h0, hfmt, h1, h2, h3] at h
    by_cases h4 : w.getVideoInfo.fpsDen > UINT_MAX
    · simp [VapourSource.ctor_clip, ThrowError, h0, hfmt, h1, h2, h3, h4] at h
    cases hpt : get_avs_pixel_type H format.id with
    | none => simp [VapourSource.ctor_clip, ThrowError, h0, hfmt, h1, h2, h3, h4, hpt] at h
    | some pixel_type =>
      by_cases h5 : pixel_type = H.CS_UNKNOWN
      · simp [VapourSource.ctor_clip, ThrowError, h0, hfmt, h1, h2, h3, h4, hpt, h5] at h
      simp only [VapourSource.ctor_clip, ThrowError, h0, hfmt, h1, h2, h3, h4, hpt, h5,
        if_false, Except.ok.injEq] at h
      subst h
      simp only [not_or] at h1
      simp only [UINT_MAX] at h3 h4
      refine ⟨h0, h1.1, h1.2, h2, by omega, by omega, format, pixel_type, rfl, hpt, h5, ?_⟩
      simp

theorem bind_ne_fault {α β : Type} {x : Except Abort α} {f : α → Except Abort β}
    (hx : x ≠ Except.error Abort.fault) (hf : ∀ a, f a ≠ Except.error Abort.fault) :
    x >>= f ≠ Except.error Abort.fault := by
  cases x with
  | error e =>
    intro h
    change (Except.error e : Except Abort β) = Except.error Abort.fault at h
    injection h with h
    exact hx (by rw [h])
  | ok a => exact hf a

theorem ctor_init_ne_fault (w : World) (mode : String) (self : VapourSource) :
    VapourSource.ctor_init w mode self ≠ Except.error Abort.fault := by
  unfold VapourSource.ctor_init ThrowError
  simp only
  split_ifs <;> simp

theorem ctor_vsapi_ne_fault (w : World) (mode : String) (self : VapourSource) :
    VapourSource.ctor_vsapi w mode self ≠ Except.error Abort.fault := by
  unfold VapourSource.ctor_vsapi ThrowError
  simp only
  split_ifs <;> simp

theorem ctor_script_ne_fault (w : World) (source mode : String) (self : VapourSource) :
    VapourSource.ctor_script w source mode self ≠ Except.error Abort.fault := by
  unfold VapourSource.ctor_script ThrowError
  simp only
  split_ifs <;> simp

theorem ctor_evaluate_ne_fault (w : World) (mode : String) (self : VapourSource) :
    VapourSource.ctor_evaluate w mode self ≠ Except.error Abort.fault := by
  unfold VapourSource.ctor_evaluate ThrowError
  simp only
  by_cases h : w.vseval_evaluateScript = 0 <;> simp [h]

theorem ctor_output_ne_fault (w : World) (index : Int) (mode : String) (self : VapourSource) :
    VapourSource.ctor_output w index mode self ≠ Except.error Abort.fault := by
  unfold VapourSource.ctor_output ThrowError
  simp only
  by_cases h : w.vseval_getOutput index = true <;> simp [h]

theorem ctor_clip_ne_fault (H : Headers) (w : World) (stacked : Bool) (mode : String)
    (self : VapourSource) :
    VapourSource.ctor_clip H w stacked mode self ≠ Except.error Abort.fault := by
  by_cases h0 : w.getVideoInfo.numFrames = 0
  · simp [VapourSource.ctor_clip, ThrowError, h0]
  cases hfmt : w.getVideoInfo.format with
  | none => simp [VapourSource.ctor_clip, ThrowError, h0, hfmt]
  | some format =>
    by_cases h1 : w.getVideoInfo.width = 0 ∨ w.getVideoInfo.height = 0
    · simp [VapourSource.ctor_clip, ThrowError, h0, hfmt, h1]
    by_cases h2 : w.getVideoInfo.fpsNum = 0
    · simp [VapourSource.ctor_clip, ThrowError, h0, hfmt, h1, h2]
    by_cases h3 : w.getVideoInfo.fpsNum > UINT_MAX
    · simp [VapourSource.ctor_clip, ThrowError, h0, hfmt, h1, h2, h3]
    by_cases h4 : w.getVideoInfo.fpsDen > UINT_MAX
    · simp [VapourSource.ctor_clip, ThrowError, h0, hfmt, h1, h2, h3, h4]
    obtain ⟨pixel_type, hpt⟩ := get_avs_pixel_type_some H format.id
    by_cases h5 : pixel_type = H.CS_UNKNOWN
    · simp [VapourSource.ctor_clip, ThrowError, h0, hfmt, h1, h2, h3, h4, hpt, h5]
    · simp [VapourSource.ctor_clip, ThrowError, h0, hfmt, h1, h2, h3, h4, hpt, h5]

/-- The constructor returns or throws: its table scan stays inside the table. -/
theorem ctor_ne_fault (H : Headers) (w : World) (source : String) (stacked : Bool)
    (index : Int) (mode : String) :
    VapourSource.ctor H w source stacked index mode ≠ Except.error Abort.fault := by
  unfold VapourSource.ctor
  exact bind_ne_fault (ctor_init_ne_fault _ _ _) fun _ =>
    bind_ne_fault (ctor_vsapi_ne_fault _ _ _) fun _ =>
    bind_ne_fault (ctor_script_ne_fault _ _ _ _) fun _ =>
    bind_ne_fault (ctor_evaluate_ne_fault _ _ _) fun _ =>
    bind_ne_fault (ctor_output_ne_fault _ _ _ _) fun _ =>
    ctor_clip_ne_fault _ _ _ _ _

/-- A returning constructor passed every step before the checks on the clip, and its result is
the result of those checks. -/
theorem ctor_ok_inv {H : Headers} {w : World} {source : String} {stacked : Bool} {index : Int}
    {mode : String} {s : VapourSource}
    (h : VapourSource.ctor H w source stacked index mode = Except.ok s) :
    w.setupOk source index mode ∧
      ∃ self, VapourSource.ctor_clip H w stacked mode self = Except.ok s := by
  unfold VapourSource.ctor at h
  obtain ⟨s1, h1, h⟩ := bind_ok_inv h
  obtain ⟨s2, h2, h⟩ := bind_ok_inv h
  obtain ⟨s3, h3, h⟩ := bind_ok_inv h
  obtain ⟨s4, h4, h⟩ := bind_ok_inv h
  obtain ⟨s5, h5, h⟩ := bind_ok_inv h
  have c3 := ctor_script_ok h3
  exact ⟨⟨ctor_init_ok h1, ctor_vsapi_ok h2, c3.1, c3.2.1, c3.2.2, ctor_evaluate_ok h4,
    ctor_output_ok h5⟩, s5, h⟩

/-- When every step before the checks on the clip succeeds, the constructor ends as those checks
end. -/
theorem ctor_of_setupOk (H : Headers) {w : World} {source : String} (stacked : Bool)
    {index : Int} {mode : String} (h : w.setupOk source index mode) :
    ∃ self, VapourSource.ctor H w source stacked index mode
      = VapourSource.ctor_clip H w stacked mode self := by
  obtain ⟨h1, h2, h3, h4, h5, h6, h7⟩ := h
  have hconv : ∀ ev, (convert_ansi_to_utf8 w ev).1 = true := by
    intro ev
    simp [convert_ansi_to_utf8, h4, h5]
  unfold VapourSource.ctor
  have e1 : ∃ s1, VapourSource.ctor_init w mode VapourSource.zero = Except.ok s1 := by
    simp [VapourSource.ctor_init, h1]
  obtain ⟨s1, e1⟩ := e1
  have e2 : ∃ s2, VapourSource.ctor_vsapi w mode s1 = Except.ok s2 := by
    simp [VapourSource.ctor_vsapi, h2]
  obtain ⟨s2, e2⟩ := e2
  have e3 : ∃ s3, VapourSource.ctor_script w source mode s2 = Except.ok s3 := by
    by_cases hm : mode = "VSImport"
    · obtain ⟨a, b, c, d⟩ := h3 hm
      have b' : ¬ get_filesize w source > 16 * 1024 * 1024 := by omega
      simp [VapourSource.ctor_script, hm, a, b', c, d, hconv]
    · simp [VapourSource.ctor_script, hm, hconv]
  obtain ⟨s3, e3⟩ := e3
  have e4 : ∃ s4, VapourSource.ctor_evaluate w mode s3 = Except.ok s4 := by
    simp [VapourSource.ctor_evaluate, h6]
  obtain ⟨s4, e4⟩ := e4
  have e5 : ∃ s5, VapourSource.ctor_output w index mode s4 = Except.ok s5 := by
    simp [VapourSource.ctor_output, h7]
  obtain ⟨s5, e5⟩ := e5
  refine ⟨s5, ?_⟩
  rw [e1]
  show (VapourSource.ctor_vsapi w mode s1 >>= _) = _
  rw [e2]
  show (VapourSource.ctor_script w source mode s2 >>= _) = _
  rw [e3]
  show (VapourSource.ctor_evaluate w mode s3 >>= _) = _
  rw [e4]
  show (VapourSource.ctor_output w index mode s4 >>= _) = _
  rw [e5]
  rfl

theorem error_cases {r : Except Abort VapourSource} (hf : r ≠ Except.error Abort.fault)
    (hok : ∀ s, r ≠ Except.ok s) : ∃ e s, r = Except.error (Abort.thrown e s) := by
  cases r with
  | ok s => exact absurd rfl (hok s)
  | error a =>
    cases a with
    | thrown e s => exact ⟨e, s, rfl⟩
    | fault => exact absurd rfl hf

theorem shl32_zero {a : Int} (h1 : -2147483648 ≤ a) (h2 : a < 2147483648) : shl32 a 0 = a := by
  unfold shl32
  simp only [Int.zero_emod, Int.toNat_zero, pow_zero, mul_one]
  exact wrap32_eq_self h1 h2

theorem shl32_one {a : Int} (h1 : -2147483648 ≤ 2 * a) (h2 : 2 * a < 2147483648) :
    shl32 a 1 = 2 * a := by
  unfold shl32
  have : ((1 : Int) % 32).toNat = 1 := by decide
  rw [this, pow_one, mul_comm]
  exact wrap32_eq_self h1 h2

/-- C2 (amended): on a clip the constructor accepts, with upstream width `W` and height `H'`
(values of `int`), the output is `W x H'` for both values of `stacked` when the sample size is
1 byte and also when the mapped pixel type is not planar (the packed formats); when the mapped
pixel type is planar and the sample size is 2 bytes it is `2W x H'` for `stacked = false` and
`W x 2H'` for `stacked = true`, provided the doubled value is still an `int`. -/
theorem ctor_geometry (H : Headers) (w : World) (source : String) (stacked : Bool) (index : Int)
    (mode : String) (s : VapourSource) (format : VSFormat)
    (hok : VapourSource.ctor H w source stacked index mode = Except.ok s)
    (hf : w.getVideoInfo.format = some format)
    (hW : -2147483648 ≤ w.getVideoInfo.width ∧ w.getVideoInfo.width < 2147483648)
    (hH : -2147483648 ≤ w.getVideoInfo.height ∧ w.getVideoInfo.height < 2147483648) :
    (format.bytesPerSample = 1 →
      s.vi.width = w.getVideoInfo.width ∧ s.vi.height = w.getVideoInfo.height) ∧
    (H.IsPlanar s.vi.pixel_type = false →
      s.vi.width = w.getVideoInfo.width ∧ s.vi.height = w.getVideoInfo.height) ∧
    (H.IsPlanar s.vi.pixel_type = true → format.bytesPerSample = 2 → stacked = false →
      -2147483648 ≤ 2 * w.getVideoInfo.width → 2 * w.getVideoInfo.width < 2147483648 →
      s.vi.width = 2 * w.getVideoInfo.width ∧ s.vi.height = w.getVideoInfo.height) ∧
    (H.IsPlanar s.vi.pixel_type = true → format.bytesPerSample = 2 → stacked = true →
      -2147483648 ≤ 2 * w.getVideoInfo.height → 2 * w.getVideoInfo.height < 2147483648 →
      s.vi.width = w.getVideoInfo.width ∧ s.vi.height = 2 * w.getVideoInfo.height) := by
  obtain ⟨_, self, hclip⟩ := ctor_ok_inv hok
  obtain ⟨_, _, _, _, _, _, format', pixel_type, hf', _, _, _, hpt, hw, hh, _⟩ :=
    ctor_clip_ok hclip
  rw [hf] at hf'
  cases hf'
  rw [hpt, hw, hh]
  have w0 : wrap32 0 = 0 := by decide
  have w1 : wrap32 1 = 1 := by decide
  refine ⟨?_, ?_, ?_, ?_⟩
  · intro hb
    rw [hb]
    cases stacked <;> cases H.IsPlanar pixel_type <;>
      simp [w0, shl32_zero hW.1 hW.2, shl32_zero hH.1 hH.2]
  · intro hp
    rw [hp]
    cases stacked <;> simp [w0, shl32_zero hW.1 hW.2, shl32_zero hH.1 hH.2]
  · intro hp hb hs h1 h2
    rw [hp, hb, hs]
    simp [w0, w1, shl32_one h1 h2, shl32_zero hH.1 hH.2]
  · intro hp hb hs h1 h2
    rw [hp, hb, hs]
    simp [w0, w1, shl32_one h1 h2, shl32_zero hW.1 hW.2]

/-- C10 (amended): on a clip the constructor accepts, `func_write_frame` is
`write_stacked_frame` exactly when the mapped pixel type is planar, the sample size is not
1 byte and `stacked` is true, and is `write_interleaved_frame` in every other case; when
`write_stacked_frame` is selected for a sample size of 2 bytes and twice the upstream height
is an `int`, the output width is the upstream width, so that a source row of `width * 2`
bytes is twice the output row, and the output height is twice the upstream height. -/
theorem ctor_strategy (H : Headers) (w : World) (source : String) (stacked : Bool) (index : Int)
    (mode : String) (s : VapourSource) (format : VSFormat)
    (hok : VapourSource.ctor H w source stacked index mode = Except.ok s)
    (hf : w.getVideoInfo.format = some format)
    (hb : -2147483648 ≤ format.bytesPerSample ∧ format.bytesPerSample < 2147483648)
    (hW : -2147483648 ≤ w.getVideoInfo.width ∧ w.getVideoInfo.width < 2147483648) :
    (s.func_write_frame = some WriteFrame.write_stacked_frame ↔
      (H.IsPlanar s.vi.pixel_type = true ∧ format.bytesPerSample ≠ 1 ∧ stacked = true)) ∧
    (¬(H.IsPlanar s.vi.pixel_type = true ∧ format.bytesPerSample ≠ 1 ∧ stacked = true) →
      s.func_write_frame = some WriteFrame.write_interleaved_frame) ∧
    (s.func_write_frame = some WriteFrame.write_stacked_frame → format.bytesPerSample = 2 →
      -2147483648 ≤ 2 * w.getVideoInfo.height → 2 * w.getVideoInfo.height < 2147483648 →
      s.vi.width = w.getVideoInfo.width ∧
      w.getVideoInfo.width * format.bytesPerSample = 2 * s.vi.width ∧
      s.vi.height = 2 * w.getVideoInfo.height) := by
  obtain ⟨_, self, hclip⟩ := ctor_ok_inv hok
  obtain ⟨_, _, _, _, _, _, format', pixel_type, hf', _, _, _, hpt, hw, hh, _, _, _, hfn⟩ :=
    ctor_clip_ok hclip
  rw [hf] at hf'
  cases hf'
  have hne : wrap32 (format.bytesPerSample - 1) ≠ 0 ↔ format.bytesPerSample ≠ 1 := by
    unfold wrap32
    constructor <;> intro h <;> omega
  have key : s.func_write_frame = some WriteFrame.write_stacked_frame ↔
      (H.IsPlanar s.vi.pixel_type = true ∧ format.bytesPerSample ≠ 1 ∧ stacked = true) := by
    rw [hfn, hpt]
    cases hp : H.IsPlanar pixel_type <;> cases stacked <;> simp [hne]
  refine ⟨key, ?_, ?_⟩
  · intro hnot
    have hns : s.func_write_frame ≠ some WriteFrame.write_stacked_frame :=
      fun h => hnot (key.mp h)
    rw [hfn] at hns ⊢
    by_cases hc : (if H.IsPlanar pixel_type then wrap32 (format.bytesPerSample - 1) else 0) ≠ 0
        ∧ stacked = true
    · rw [if_pos hc] at hns
      exact absurd rfl hns
    · rw [if_neg hc]
  · intro hsel hb2 h1 h2
    obtain ⟨hp, _, hs⟩ := key.mp hsel
    rw [hpt] at hp
    have w0 : wrap32 0 = 0 := by decide
    have w1 : wrap32 1 = 1 := by decide
    rw [hw, hh, hp, hb2, hs]
    simp [w0, w1, shl32_one h1 h2, shl32_zero hW.1 hW.2]
    ring

/-- A positive `int` shifted left by `b - 1` bits, `b` at least 1, is the product with
`2 ^ (b - 1)` when the product is an `int`; the count `b - 1` is then below 31. -/
theorem shl32_scale {a b : Int} (ha : 0 < a) (hb : 1 ≤ b)
    (hfit : a * 2 ^ (b - 1).toNat < 2147483648) :
    shl32 a (wrap32 (wrap32 (b - 1))) = a * 2 ^ (b - 1).toNat ∧
      a ≤ a * 2 ^ (b - 1).toNat := by
  have hpow : (1 : Int) ≤ 2 ^ (b - 1).toNat := one_le_pow₀ (by norm_num)
  have hlt : (b - 1).toNat < 31 := by
    by_contra hge
    have h31 : (2 : Int) ^ 31 ≤ 2 ^ (b - 1).toNat :=
      pow_le_pow_right₀ (by norm_num) (by omega)
    have h31v : (2 : Int) ^ 31 = 2147483648 := by norm_num
    rw [h31v] at h31
    have : (2147483648 : Int) ≤ a * 2 ^ (b - 1).toNat := by nlinarith
    omega
  have hle : a ≤ a * 2 ^ (b - 1).toNat := by nlinarith
  have hwb : wrap32 (b - 1) = b - 1 := wrap32_eq_self (by omega) (by omega)
  have hmod : ((b - 1) % 32).toNat = (b - 1).toNat := by omega
  have e : shl32 a (wrap32 (wrap32 (b - 1))) = a * 2 ^ (b - 1).toNat := by
    rw [hwb, hwb]
    unfold shl32
    rw [hmod]
    exact wrap32_eq_self (by omega) hfit
  exact ⟨e, hle⟩

/-- C8 (amended): on a clip description whose width, height, frame count and fps values are not
negative, which the constructor accepts, and whose scaled dimension keeps the range of `int`
when the mapped pixel type is planar (the sample size `b` is at least 1 and the height, for
`stacked = true`, or the width, for `stacked = false`, times `2 ^ (b - 1)` is an `int`; the
other dimension is not scaled): the descriptor has `num_frames > 0`, `width > 0`,
`height > 0` and `fps_numerator > 0`, both upstream fps values are at most `2^32 - 1`, and
the stored 32-bit fps values are the upstream values. -/
theorem ctor_descriptor (H : Headers) (w : World) (source : String) (stacked : Bool)
    (index : Int) (mode : String) (s : VapourSource) (format : VSFormat)
    (hok : VapourSource.ctor H w source stacked index mode = Except.ok s)
    (hf : w.getVideoInfo.format = some format)
    (hW : 0 ≤ w.getVideoInfo.width ∧ w.getVideoInfo.width < 2147483648)
    (hH : 0 ≤ w.getVideoInfo.height ∧ w.getVideoInfo.height < 2147483648)
    (hN : 0 ≤ w.getVideoInfo.numFrames)
    (hnum : 0 ≤ w.getVideoInfo.fpsNum) (hden : 0 ≤ w.getVideoInfo.fpsDen)
    (hgeo : H.IsPlanar s.vi.pixel_type = true → 1 ≤ format.bytesPerSample ∧
      (if stacked then w.getVideoInfo.height else w.getVideoInfo.width)
        * 2 ^ (format.bytesPerSample - 1).toNat < 2147483648) :
    0 < s.vi.num_frames ∧ 0 < s.vi.width ∧ 0 < s.vi.height ∧ 0 < s.vi.fps_numerator ∧
    w.getVideoInfo.fpsNum ≤ 4294967295 ∧ w.getVideoInfo.fpsDen ≤ 4294967295 ∧
    (s.vi.fps_numerator : Int) = w.getVideoInfo.fpsNum ∧
    (s.vi.fps_denominator : Int) = w.getVideoInfo.fpsDen := by
  obtain ⟨_, self, hclip⟩ := ctor_ok_inv hok
  obtain ⟨n0, hwne, hhne, f0, f1, f2, format', pixel_type, hf', _, _, _, hpt, hw, hh, hfn, hfd, hnf, _⟩ :=
    ctor_clip_ok hclip
  rw [hf] at hf'
  cases hf'
  rw [hpt] at hgeo
  have hnum' : (s.vi.fps_numerator : Int) = w.getVideoInfo.fpsNum := by
    rw [hfn]; unfold toUnsigned; omega
  have hden' : (s.vi.fps_denominator : Int) = w.getVideoInfo.fpsDen := by
    rw [hfd]; unfold toUnsigned; omega
  have w0 : wrap32 0 = 0 := by decide
  have hW0 := shl32_zero (a := w.getVideoInfo.width) (by omega) hW.2
  have hH0 := shl32_zero (a := w.getVideoInfo.height) (by omega) hH.2
  have hwpos : 0 < w.getVideoInfo.width := by omega
  have hhpos : 0 < w.getVideoInfo.height := by omega
  have hdim : w.getVideoInfo.width ≤ s.vi.width ∧ w.getVideoInfo.height ≤ s.vi.height := by
    rw [hw, hh]
    cases hp : H.IsPlanar pixel_type with
    | false => cases stacked <;> simp [w0, hW0, hH0]
    | true =>
      obtain ⟨hb, hfit⟩ := hgeo hp
      cases stacked with
      | false =>
        simp only [Bool.false_eq_true, if_false] at hfit
        obtain ⟨e, hle⟩ := shl32_scale hwpos hb hfit
        simp only [if_true, Bool.false_eq_true, if_false, mul_one, mul_zero, w0, hH0, e]
        exact ⟨hle, le_refl _⟩
      | true =>
        simp only [if_true] at hfit
        obtain ⟨e, hle⟩ := shl32_scale hhpos hb hfit
        simp only [if_true, mul_one, mul_zero, w0, hW0, e]
        exact ⟨le_refl _, hle⟩
  have hdim : 0 < s.vi.width ∧ 0 < s.vi.height := ⟨by omega, by omega⟩
  refine ⟨by omega, hdim.1, hdim.2, by omega, f1, f2, hnum', hden'⟩

theorem bind_error_inv {α β : Type} {x : Except Abort α} {f : α → Except Abort β} {a : Abort}
    (h : x >>= f = Except.error a) :
    x = Except.error a ∨ ∃ b, x = Except.ok b ∧ f b = Except.error a := by
  cases x with
  | error e =>
    change (Except.error e : Except Abort β) = Except.error a at h
    injection h with h
    exact Or.inl (by rw [h])
  | ok b => exact Or.inr ⟨b, rfl, h⟩

theorem ctor_init_fmt {w : World} {mode : String} {self s : VapourSource} {e : AvisynthError}
    (h : VapourSource.ctor_init w mode self = Except.error (Abort.thrown e s)) :
    e.fmt ≠ "%s: filesize of source is over 16MiB." := by
  unfold VapourSource.ctor_init ThrowError at h
  simp only at h
  split_ifs at h
  all_goals (cases h; simp)

theorem ctor_vsapi_fmt {w : World} {mode : String} {self s : VapourSource} {e : AvisynthError}
    (h : VapourSource.ctor_vsapi w mode self = Except.error (Abort.thrown e s)) :
    e.fmt ≠ "%s: filesize of source is over 16MiB." := by
  unfold VapourSource.ctor_vsapi ThrowError at h
  simp only at h
  split_ifs at h
  all_goals (cases h; simp)

theorem ctor_script_fmt {w : World} {source mode : String} {self s : VapourSource}
    {e : AvisynthError}
    (h : VapourSource.ctor_script w source mode self = Except.error (Abort.thrown e s))
    (hsize : get_filesize w source = 16 * 1024 * 1024) :
    e.fmt ≠ "%s: filesize of source is over 16MiB." := by
  unfold VapourSource.ctor_script ThrowError at h
  simp only at h
  split_ifs at h with _ _ hbig
  all_goals first
    | (exfalso; omega)
    | (cases h; simp)

theorem ctor_evaluate_fmt {w : World} {mode : String} {self s : VapourSource}
    {e : AvisynthError}
    (h : VapourSource.ctor_evaluate w mode self = Except.error (Abort.thrown e s)) :
    e.fmt ≠ "%s: filesize of source is over 16MiB." := by
  by_cases h0 : w.vseval_evaluateScript = 0
  · simp [VapourSource.ctor_evaluate, ThrowError, h0] at h
  · simp only [VapourSource.ctor_evaluate, ThrowError, h0, ne_eq, not_false_eq_true, if_true,
      Except.error.injEq, Abort.thrown.injEq] at h
    rw [← h.1]
    simp

theorem ctor_output_fmt {w : World} {index : Int} {mode : String} {self s : VapourSource}
    {e : AvisynthError}
    (h : VapourSource.ctor_output w index mode self = Except.error (Abort.thrown e s)) :
    e.fmt ≠ "%s: filesize of source is over 16MiB." := by
  unfold VapourSource.ctor_output ThrowError at h
  simp only at h
  by_cases h0 : w.vseval_getOutput index = false
  · rw [if_pos h0] at h
    cases h
    simp
  · rw [if_neg h0] at h
    cases h

/-- The error the checks on the clip end with, check by check. -/
theorem ctor_clip_error (H : Headers) (w : World) (stacked : Bool) (mode : String)
    (self : VapourSource) :
    (w.getVideoInfo.numFrames = 0 →
      ∃ s, VapourSource.ctor_clip H w stacked mode self = Except.error (Abort.thrown
        ⟨"%s: input clip has infinite length.", [FmtArg.str mode]⟩ s)) ∧
    (w.getVideoInfo.numFrames ≠ 0 →
      (w.getVideoInfo.format = none ∨ w.getVideoInfo.width = 0 ∨ w.getVideoInfo.height = 0) →
      ∃ s, VapourSource.ctor_clip H w stacked mode self = Except.error (Abort.thrown
        ⟨"%s: input clip is not constant format.", [FmtArg.str mode]⟩ s)) ∧
    (w.getVideoInfo.numFrames ≠ 0 → w.getVideoInfo.format ≠ none →
      w.getVideoInfo.width ≠ 0 → w.getVideoInfo.height ≠ 0 → w.getVideoInfo.fpsNum = 0 →
      ∃ s, VapourSource.ctor_clip H w stacked mode self = Except.error (Abort.thrown
        ⟨"%s: input clip is not constant framerate.", [FmtArg.str mode]⟩ s)) ∧
    (w.getVideoInfo.numFrames ≠ 0 → w.getVideoInfo.format ≠ none →
      w.getVideoInfo.width ≠ 0 → w.getVideoInfo.height ≠ 0 →
      w.getVideoInfo.fpsNum > 4294967295 →
      ∃ s, VapourSource.ctor_clip H w stacked mode self = Except.error (Abort.thrown
        ⟨"%s: clip has over %u fpsnum.", [FmtArg.str mode, FmtArg.uint 4294967295]⟩ s)) ∧
    (w.getVideoInfo.numFrames ≠ 0 → w.getVideoInfo.format ≠ none →
      w.getVideoInfo.width ≠ 0 → w.getVideoInfo.height ≠ 0 → w.getVideoInfo.fpsNum ≠ 0 →
      w.getVideoInfo.fpsNum ≤ 4294967295 → w.getVideoInfo.fpsDen > 4294967295 →
      ∃ s, VapourSource.ctor_clip H w stacked mode self = Except.error (Abort.thrown
        ⟨"%s: clip has over %u fpsden.", [FmtArg.str mode, FmtArg.uint 4294967295]⟩ s)) ∧
    (w.getVideoInfo.numFrames ≠ 0 →
      w.getVideoInfo.width ≠ 0 → w.getVideoInfo.height ≠ 0 → w.getVideoInfo.fpsNum ≠ 0 →
      w.getVideoInfo.fpsNum ≤ 4294967295 → w.getVideoInfo.fpsDen ≤ 4294967295 →
      (∃ format, w.getVideoInfo.format = some format ∧
        get_avs_pixel_type H format.id = some H.CS_UNKNOWN) →
      ∃ s, VapourSource.ctor_clip H w stacked mode self = Except.error (Abort.thrown
        ⟨"%s: input clip is unsupported format.", [FmtArg.str mode]⟩ s)) := by
  refine ⟨?_, ?_, ?_, ?_, ?_, ?_⟩
  · intro h0
    refine ⟨{ self with vsvi := some w.getVideoInfo }, ?_⟩
    simp [VapourSource.ctor_clip, ThrowError, h0]
  · intro h0 h1
    refine ⟨{ self with vsvi := some w.getVideoInfo }, ?_⟩
    cases hfmt : w.getVideoInfo.format with
    | none => simp [VapourSource.ctor_clip, ThrowError, h0, hfmt]
    | some format =>
      have h1' : w.getVideoInfo.width = 0 ∨ w.getVideoInfo.height = 0 := by
        rcases h1 with h | h
        · rw [hfmt] at h; cases h
        · exact h
      simp [VapourSource.ctor_clip, ThrowError, h0, hfmt, h1']
  · intro h0 hf hw hh h2
    refine ⟨{ self with vsvi := some w.getVideoInfo }, ?_⟩
    cases hfmt : w.getVideoInfo.format with
    | none => exact absurd hfmt hf
    | some format =>
      simp [VapourSource.ctor_clip, ThrowError, h0, hfmt, hw, hh, h2]
  · intro h0 hf hw hh h3
    refine ⟨{ self with vsvi := some w.getVideoInfo }, ?_⟩
    cases hfmt : w.getVideoInfo.format with
    | none => exact absurd hfmt hf
    | some format =>
      have h2 : w.getVideoInfo.fpsNum ≠ 0 := by omega
      have h3' : w.getVideoInfo.fpsNum > UINT_MAX := h3
      simp [VapourSource.ctor_clip, ThrowError, h0, hfmt, hw, hh, h2, h3']
      rfl
  · intro h0 hf hw hh h2 h3 h4
    refine ⟨{ self with vsvi := some w.getVideoInfo }, ?_⟩
    cases hfmt : w.getVideoInfo.format with
    | none => exact absurd hfmt hf
    | some format =>
      have h3' : ¬ w.getVideoInfo.fpsNum > UINT_MAX := by unfold UINT_MAX; omega
      have h4' : w.getVideoInfo.fpsDen > UINT_MAX := h4
      simp [VapourSource.ctor_clip, ThrowError, h0, hfmt, hw, hh, h2, h3', h4']
      rfl
  · intro h0 hw hh h2 h3 h4 hu
    obtain ⟨format, hfmt, hpt⟩ := hu
    refine ⟨{ self with vsvi := some w.getVideoInfo,
                        vi := { self.vi with pixel_type := H.CS_UNKNOWN } }, ?_⟩
    have h3' : ¬ w.getVideoInfo.fpsNum > UINT_MAX := by unfold UINT_MAX; omega
    have h4' : ¬ w.getVideoInfo.fpsDen > UINT_MAX := by unfold UINT_MAX; omega
    simp [VapourSource.ctor_clip, ThrowError, h0, hfmt, hw, hh, h2, h3', h4', hpt]

/-- The checks on the clip never report the file size error. -/
theorem ctor_clip_fmt {H : Headers} {w : World} {stacked : Bool} {mode : String}
    {self s : VapourSource} {e : AvisynthError}
    (h : VapourSource.ctor_clip H w stacked mode self = Except.error (Abort.thrown e s)) :
    e.fmt ≠ "%s: filesize of source is over 16MiB." := by
  have hc := ctor_clip_error H w stacked mode self
  by_cases h0 : w.getVideoInfo.numFrames = 0
  · obtain ⟨s', hs'⟩ := hc.1 h0
    rw [hs'] at h; cases h; simp
  by_cases h1 : w.getVideoInfo.format = none ∨ w.getVideoInfo.width = 0 ∨ w.getVideoInfo.height = 0
  · obtain ⟨s', hs'⟩ := hc.2.1 h0 h1
    rw [hs'] at h; cases h; simp
  simp only [not_or] at h1
  obtain ⟨hf, hw, hh⟩ := h1
  by_cases h2 : w.getVideoInfo.fpsNum = 0
  · obtain ⟨s', hs'⟩ := hc.2.2.1 h0 hf hw hh h2
    rw [hs'] at h; cases h; simp
  by_cases h3 : w.getVideoInfo.fpsNum > 4294967295
  · obtain ⟨s', hs'⟩ := hc.2.2.2.1 h0 hf hw hh h3
    rw [hs'] at h; cases h; simp
  by_cases h4 : w.getVideoInfo.fpsDen > 4294967295
  · obtain ⟨s', hs'⟩ := hc.2.2.2.2.1 h0 hf hw hh h2 (by omega) h4
    rw [hs'] at h; cases h; simp
  cases hfmt : w.getVideoInfo.format with
  | none => exact absurd hfmt hf
  | some format =>
    obtain ⟨pixel_type, hpt⟩ := get_avs_pixel_type_some H format.id
    by_cases h5 : pixel_type = H.CS_UNKNOWN
    · obtain ⟨s', hs'⟩ := hc.2.2.2.2.2 h0 hw hh h2 (by omega) (by omega)
        ⟨format, hfmt, by rw [hpt, h5]⟩
      rw [hs'] at h; cases h; simp
    · have h3' : ¬ w.getVideoInfo.fpsNum > UINT_MAX := h3
      have h4' : ¬ w.getVideoInfo.fpsDen > UINT_MAX := h4
      simp [VapourSource.ctor_clip, ThrowError, h0, hfmt, hw, hh, h2, h3', h4', hpt, h5] at h

/-- C7: the constructor ends in a thrown error on every input with an empty or missing file or a
file above 16 MiB in file mode, a script that fails to evaluate, no output at the index, a
frame count of 0, no format, a width or height of 0, an fps numerator of 0 or above
`2^32 - 1`, an fps denominator above `2^32 - 1`, or a format that maps to `CS_UNKNOWN`; with a
file of exactly 16 MiB it never reports the size error; and when the steps before the checks
on the clip pass, each of the six checks on the clip reports its own message, the six being
pairwise different. -/
theorem ctor_rejects (H : Headers) (w : World) (source : String) (stacked : Bool) (index : Int)
    (mode : String) :
    (((mode = "VSImport" ∧ get_filesize w source = 0) ∨
      (mode = "VSImport" ∧ get_filesize w source > 16 * 1024 * 1024) ∨
      w.vseval_evaluateScript ≠ 0 ∨
      w.vseval_getOutput index = false ∨
      w.getVideoInfo.numFrames = 0 ∨
      w.getVideoInfo.format = none ∨ w.getVideoInfo.width = 0 ∨ w.getVideoInfo.height = 0 ∨
      w.getVideoInfo.fpsNum = 0 ∨
      w.getVideoInfo.fpsNum > 4294967295 ∨
      w.getVideoInfo.fpsDen > 4294967295 ∨
      (∃ format, w.getVideoInfo.format = some format ∧
        get_avs_pixel_type H format.id = some H.CS_UNKNOWN)) →
      ∃ e s, VapourSource.ctor H w source stacked index mode
        = Except.error (Abort.thrown e s)) ∧
    (get_filesize w source = 16 * 1024 * 1024 →
      ∀ e s, VapourSource.ctor H w source stacked index mode = Except.error (Abort.thrown e s) →
        e.fmt ≠ "%s: filesize of source is over 16MiB.") ∧
    (w.setupOk source index mode →
      (w.getVideoInfo.numFrames = 0 →
        ∃ s, VapourSource.ctor H w source stacked index mode = Except.error (Abort.thrown
          ⟨"%s: input clip has infinite length.", [FmtArg.str mode]⟩ s)) ∧
      (w.getVideoInfo.numFrames ≠ 0 →
        (w.getVideoInfo.format = none ∨ w.getVideoInfo.width = 0 ∨ w.getVideoInfo.height = 0) →
        ∃ s, VapourSource.ctor H w source stacked index mode = Except.error (Abort.thrown
          ⟨"%s: input clip is not constant format.", [FmtArg.str mode]⟩ s)) ∧
      (w.getVideoInfo.numFrames ≠ 0 → w.getVideoInfo.format ≠ none →
        w.getVideoInfo.width ≠ 0 → w.getVideoInfo.height ≠ 0 → w.getVideoInfo.fpsNum = 0 →
        ∃ s, VapourSource.ctor H w source stacked index mode = Except.error (Abort.thrown
          ⟨"%s: input clip is not constant framerate.", [FmtArg.str mode]⟩ s)) ∧
      (w.getVideoInfo.numFrames ≠ 0 → w.getVideoInfo.format ≠ none →
        w.getVideoInfo.width ≠ 0 → w.getVideoInfo.height ≠ 0 →
        w.getVideoInfo.fpsNum > 4294967295 →
        ∃ s, VapourSource.ctor H w source stacked index mode = Except.error (Abort.thrown
          ⟨"%s: clip has over %u fpsnum.", [FmtArg.str mode, FmtArg.uint 4294967295]⟩ s)) ∧
      (w.getVideoInfo.numFrames ≠ 0 → w.getVideoInfo.format ≠ none →
        w.getVideoInfo.width ≠ 0 → w.getVideoInfo.height ≠ 0 → w.getVideoInfo.fpsNum ≠ 0 →
        w.getVideoInfo.fpsNum ≤ 4294967295 → w.getVideoInfo.fpsDen > 4294967295 →
        ∃ s, VapourSource.ctor H w source stacked index mode = Except.error (Abort.thrown
          ⟨"%s: clip has over %u fpsden.", [FmtArg.str mode, FmtArg.uint 4294967295]⟩ s)) ∧
      (w.getVideoInfo.numFrames ≠ 0 →
        w.getVideoInfo.width ≠ 0 → w.getVideoInfo.height ≠ 0 → w.getVideoInfo.fpsNum ≠ 0 →
        w.getVideoInfo.fpsNum ≤ 4294967295 → w.getVideoInfo.fpsDen ≤ 4294967295 →
        (∃ format, w.getVideoInfo.format = some format ∧
          get_avs_pixel_type H format.id = some H.CS_UNKNOWN) →
        ∃ s, VapourSource.ctor H w source stacked index mode = Except.error (Abort.thrown
          ⟨"%s: input clip is unsupported format.", [FmtArg.str mode]⟩ s))) ∧
    ["%s: input clip has infinite length.", "%s: input clip is not constant format.",
      "%s: input clip is not constant framerate.", "%s: clip has over %u fpsnum.",
      "%s: clip has over %u fpsden.", "%s: input clip is unsupported format."].Nodup := by
  refine ⟨?_, ?_, ?_, by decide⟩
  · intro hcond
    apply error_cases (ctor_ne_fault H w source stacked index mode)
    intro s hok
    obtain ⟨⟨_, _, hfile, _, _, heval, hout⟩, self, hclip⟩ := ctor_ok_inv hok
    obtain ⟨n0, w0, h0, f0, f1, f2, format, pixel_type, hf, hpt, hunk, _⟩ := ctor_clip_ok hclip
    rcases hcond with ⟨hm, hz⟩ | ⟨hm, hbig⟩ | he | ho | hn | hfn | hw | hh | hfz | hfb | hdb | hu
    · exact (hfile hm).1 hz
    · have := (hfile hm).2.1
      omega
    · exact he heval
    · rw [hout] at ho; cases ho
    · exact n0 hn
    · rw [hf] at hfn; cases hfn
    · exact w0 hw
    · exact h0 hh
    · exact f0 hfz
    · omega
    · omega
    · obtain ⟨format', hf', hpt'⟩ := hu
      rw [hf] at hf'
      cases hf'
      rw [hpt] at hpt'
      cases hpt'
      exact hunk rfl
  · intro hsize e s herr
    unfold VapourSource.ctor at herr
    rcases bind_error_inv herr with h | ⟨s1, _, herr⟩
    · exact ctor_init_fmt h
    rcases bind_error_inv herr with h | ⟨s2, _, herr⟩
    · exact ctor_vsapi_fmt h
    rcases bind_error_inv herr with h | ⟨s3, _, herr⟩
    · exact ctor_script_fmt h hsize
    rcases bind_error_inv herr with h | ⟨s4, _, herr⟩
    · exact ctor_evaluate_fmt h
    rcases bind_error_inv herr with h | ⟨s5, _, herr⟩
    · exact ctor_output_fmt h
    exact ctor_clip_fmt herr
  · intro hsetup
    obtain ⟨self, hc⟩ := ctor_of_setupOk H stacked hsetup
    rw [hc]
    exact ctor_clip_error H w stacked mode self

/-- C9: when `getFrame` returns null, `GetFrame` makes two calls, the allocation of a frame from
`vi` and `getFrame`, and returns the allocated frame: no converter call, no `freeFrame`.
When it returns a frame, the converter is called once on the allocated frame with the
format's plane count, `freeFrame` follows once if the converter returns, and the frame the
converter produced is returned; every object the constructor returns has the converter and
the format this needs. -/
theorem GetFrame_calls (H : Headers) (self : VapourSource) (env : FrameEnv) (n : Int) :
    (env.getFrame n = none →
      self.GetFrame H env n
        = ⟨[FrameCall.NewVideoFrame self.vi, FrameCall.getFrame n],
            some (env.NewVideoFrame self.vi)⟩) ∧
    (∀ (src : VSFrameRef) (f : WriteFrame) (vsvi : VSVideoInfo) (format : VSFormat),
      env.getFrame n = some src → self.func_write_frame = some f →
      self.vsvi = some vsvi → vsvi.format = some format →
      (self.GetFrame H env n).ret
        = f.call H src (env.NewVideoFrame self.vi) format.numPlanes ∧
      (self.GetFrame H env n).calls
        = [FrameCall.NewVideoFrame self.vi, FrameCall.getFrame n,
            FrameCall.func_write_frame f format.numPlanes]
          ++ (if (f.call H src (env.NewVideoFrame self.vi) format.numPlanes).isSome
              then [FrameCall.freeFrame] else [])) ∧
    (∀ (w : World) (source : String) (stacked : Bool) (index : Int) (mode : String),
      VapourSource.ctor H w source stacked index mode = Except.ok self →
      ∃ f vsvi format, self.func_write_frame = some f ∧ self.vsvi = some vsvi ∧
        vsvi.format = some format) := by
  refine ⟨?_, ?_, ?_⟩
  · intro hnull
    simp only [VapourSource.GetFrame, hnull]
  · intro src f vsvi format hsrc hf hv hfmt
    simp only [VapourSource.GetFrame, hsrc, hf, hv, Option.some_bind, hfmt]
    cases hcall : f.call H src (env.NewVideoFrame self.vi) format.numPlanes <;> simp
  · intro w source stacked index mode hok
    obtain ⟨_, self0, hclip⟩ := ctor_ok_inv hok
    obtain ⟨_, _, _, _, _, _, format, pixel_type, hf, _, _, hv, _, _, _, _, _, _, hfn⟩ :=
      ctor_clip_ok hclip
    by_cases hc : (if H.IsPlanar pixel_type then wrap32 (format.bytesPerSample - 1) else 0) ≠ 0
        ∧ stacked = true
    · rw [if_pos hc] at hfn
      exact ⟨_, _, format, hfn, hv, hf⟩
    · rw [if_neg hc] at hfn
      exact ⟨_, _, format, hfn, hv, hf⟩

/-- C6 (amended): on every state of the members in which `vsapi` is set whenever `node` is, the
destructor returns; the releases it performs are a rearrangement of the resources the object
owns, so each owned resource is released once and nothing else is, and they come in the order
script buffer, output node, evaluation context, initialization token. -/
theorem dtor_releases (self : VapourSource) (h : self.node = true → self.vsapi = true) :
    ∃ evs, self.dtor = some evs ∧
      evs.Perm (self.owned.map Event.release) ∧
      evs.Sublist [Event.release Resource.scriptBuffer, Event.release Resource.outputNode,
        Event.release Resource.evalContext, Event.release Resource.initToken] := by
  obtain ⟨is_init, se, vsapi, node, vsvi, script_buffer, vi, func, events⟩ := self
  simp only at h
  unfold VapourSource.dtor VapourSource.owned
  simp only
  by_cases hi : is_init = 0 <;> cases se <;> cases node <;> cases script_buffer <;>
    simp [hi, h] <;> decide

/-! ## The resources held when the constructor ends -/

theorem held.go_append (acc : List Resource) (es fs : List Event) :
    held.go acc (es ++ fs) = held.go (held.go acc es) fs := by
  induction es generalizing acc with
  | nil => rfl
  | cons e es ih =>
    cases e with
    | acquire r => exact ih _
    | release r => exact ih _

theorem held_append (es fs : List Event) : held (es ++ fs) = held.go (held es) fs :=
  held.go_append [] es fs

theorem ctor_init_state {w : World} {mode : String} :
    (∀ s, VapourSource.ctor_init w mode VapourSource.zero = Except.ok s →
      s.is_init ≠ 0 ∧ s.vsapi = false ∧ s.script_buffer = false ∧ s.se = false ∧
      s.node = false ∧ held s.events = [Resource.initToken]) ∧
    (∀ e s, VapourSource.ctor_init w mode VapourSource.zero = Except.error (Abort.thrown e s) →
      s.Accounted) := by
  by_cases h0 : w.vseval_init = 0
  · refine ⟨fun s h => ?_, fun e s h => ?_⟩
    · simp [VapourSource.ctor_init, ThrowError, h0] at h
    · simp only [VapourSource.ctor_init, ThrowError, h0, if_true, Except.error.injEq,
        Abort.thrown.injEq] at h
      obtain ⟨_, rfl⟩ := h
      exact And.intro (fun h => by cases h) rfl
  · refine ⟨fun s h => ?_, fun e s h => ?_⟩
    · simp only [VapourSource.ctor_init, ThrowError, h0, if_false, Except.ok.injEq] at h
      subst h
      exact ⟨h0, rfl, rfl, rfl, rfl, rfl⟩
    · simp [VapourSource.ctor_init, ThrowError, h0] at h

theorem accounted_of_token {self : VapourSource} (h1 : self.is_init ≠ 0) (h4 : self.se = false)
    (h5 : self.node = false) (es : List Event) (b v : Bool)
    (hes : (held es).filter (fun r => decide (r ≠ Resource.fileBuffer)) = [Resource.initToken])
    (hb : b = false) :
    VapourSource.Accounted { self with vsapi := v, script_buffer := b, events := es } := by
  unfold VapourSource.Accounted
  refine ⟨fun h => ?_, ?_⟩
  · simp only [h5] at h
    cases h
  · show (held es).filter _ = _
    rw [hes]
    simp [VapourSource.owned, h1, hb, h4, h5]

theorem ctor_vsapi_state {w : World} {mode : String} {self : VapourSource}
    (hp : self.is_init ≠ 0 ∧ self.vsapi = false ∧ self.script_buffer = false ∧ self.se = false ∧
      self.node = false ∧ held self.events = [Resource.initToken]) :
    (∀ s, VapourSource.ctor_vsapi w mode self = Except.ok s →
      s.is_init ≠ 0 ∧ s.vsapi = true ∧ s.script_buffer = false ∧ s.se = false ∧
      s.node = false ∧ held s.events = [Resource.initToken]) ∧
    (∀ e s, VapourSource.ctor_vsapi w mode self = Except.error (Abort.thrown e s) →
      s.Accounted) := by
  obtain ⟨h1, h2, h3, h4, h5, h6⟩ := hp
  cases h0 : w.vseval_getVSApi
  · refine ⟨fun s h => ?_, fun e s h => ?_⟩
    · simp [VapourSource.ctor_vsapi, ThrowError, h0] at h
    · simp only [VapourSource.ctor_vsapi, ThrowError, h0, if_true, Except.error.injEq,
        Abort.thrown.injEq] at h
      obtain ⟨_, rfl⟩ := h
      exact accounted_of_token h1 h4 h5 self.events self.script_buffer false
        (by rw [h6]; rfl) h3
  · refine ⟨fun s h => ?_, fun e s h => ?_⟩
    · simp only [VapourSource.ctor_vsapi, ThrowError, h0, Bool.true_eq_false, if_false,
        Except.ok.injEq] at h
      subst h
      exact ⟨h1, rfl, h3, h4, h5, h6⟩
    · simp [VapourSource.ctor_vsapi, ThrowError, h0] at h

theorem ctor_script_state {w : World} {source mode : String} {self : VapourSource}
    (hp : self.is_init ≠ 0 ∧ self.vsapi = true ∧ self.script_buffer = false ∧ self.se = false ∧
      self.node = false ∧ held self.events = [Resource.initToken]) :
    (∀ s, VapourSource.ctor_script w source mode self = Except.ok s →
      s.is_init ≠ 0 ∧ s.vsapi = true ∧ s.script_buffer = true ∧ s.se = false ∧
      s.node = false ∧ held s.events = [Resource.initToken, Resource.scriptBuffer]) ∧
    (∀ e s, VapourSource.ctor_script w source mode self = Except.error (Abort.thrown e s) →
      s.Accounted) := by
  obtain ⟨h1, h2, h3, h4, h5, h6⟩ := hp
  have hacc := fun es b hes hb => accounted_of_token h1 h4 h5 es b self.vsapi hes hb
  by_cases hm : mode = "VSImport"
  · by_cases c1 : get_filesize w source = 0
    · refine ⟨fun s h => ?_, fun e s h => ?_⟩
      · simp [VapourSource.ctor_script, ThrowError, hm, c1] at h
      · simp only [VapourSource.ctor_script, ThrowError, hm, c1, if_true, Except.error.injEq,
          Abort.thrown.injEq] at h
        obtain ⟨_, rfl⟩ := h
        exact hacc self.events self.script_buffer (by rw [h6]; rfl) h3
    by_cases c2 : get_filesize w source > 16 * 1024 * 1024
    · refine ⟨fun s h => ?_, fun e s h => ?_⟩
      · simp [VapourSource.ctor_script, ThrowError, hm, c1, c2] at h
      · simp only [VapourSource.ctor_script, ThrowError, hm, c1, c2, if_true, if_false,
          Except.error.injEq, Abort.thrown.injEq] at h
        obtain ⟨_, rfl⟩ := h
        exact hacc self.events self.script_buffer (by rw [h6]; rfl) h3
    cases c3 : w.calloc
    · refine ⟨fun s h => ?_, fun e s h => ?_⟩
      · simp [VapourSource.ctor_script, ThrowError, hm, c1, c2, c3] at h
      · simp only [VapourSource.ctor_script, ThrowError, hm, c1, c2, c3, if_true, if_false,
          Except.error.injEq, Abort.thrown.injEq] at h
        obtain ⟨_, rfl⟩ := h
        exact hacc self.events self.script_buffer (by rw [h6]; rfl) h3
    cases c4 : w.fopen source
    · refine ⟨fun s h => ?_, fun e s h => ?_⟩
      · simp [VapourSource.ctor_script, ThrowError, hm, c1, c2, c3, c4] at h
      · simp only [VapourSource.ctor_script, ThrowError, hm, c1, c2, c3, c4, if_true, if_false,
          Bool.true_eq_false, Except.error.injEq, Abort.thrown.injEq] at h
        obtain ⟨_, rfl⟩ := h
        exact hacc _ self.script_buffer (by rw [held_append, h6]; rfl) h3
    cases c5 : w.malloc_wide
    · refine ⟨fun s h => ?_, fun e s h => ?_⟩
      · simp [VapourSource.ctor_script, ThrowError, convert_ansi_to_utf8, hm, c1, c2, c3, c4,
          c5] at h
      · simp only [VapourSource.ctor_script, ThrowError, convert_ansi_to_utf8, hm, c1, c2, c3,
          c4, c5, if_true, if_false, Bool.true_eq_false, Except.error.injEq,
          Abort.thrown.injEq] at h
        obtain ⟨_, rfl⟩ := h
        exact hacc _ false (by rw [held_append, held_append, held_append, h6]; rfl) rfl
    cases c6 : w.malloc_utf8
    · refine ⟨fun s h => ?_, fun e s h => ?_⟩
      · simp [VapourSource.ctor_script, ThrowError, convert_ansi_to_utf8, hm, c1, c2, c3, c4,
          c5, c6] at h
      · simp only [VapourSource.ctor_script, ThrowError, convert_ansi_to_utf8, hm, c1, c2, c3,
          c4, c5, c6, if_true, if_false, Bool.true_eq_false, Except.error.injEq,
          Abort.thrown.injEq] at h
        obtain ⟨_, rfl⟩ := h
        exact hacc _ false
          (by rw [held_append, held_append, held_append, held_append, h6]; rfl) rfl
    · refine ⟨fun s h => ?_, fun e s h => ?_⟩
      · simp only [VapourSource.ctor_script, ThrowError, convert_ansi_to_utf8, hm, c1, c2, c3,
          c4, c5, c6, if_true, if_false, Bool.true_eq_false, Except.ok.injEq] at h
        subst h
        refine ⟨h1, h2, rfl, h4, h5, ?_⟩
        show held (_ ++ _) = _
        rw [held_append, held_append, held_append, held_append, h6]
        rfl
      · simp [VapourSource.ctor_script, ThrowError, convert_ansi_to_utf8, hm, c1, c2, c3, c4,
          c5, c6] at h
  · cases c5 : w.malloc_wide
    · refine ⟨fun s h => ?_, fun e s h => ?_⟩
      · simp [VapourSource.ctor_script, ThrowError, convert_ansi_to_utf8, hm, c5] at h
      · simp only [VapourSource.ctor_script, ThrowError, convert_ansi_to_utf8, hm, c5, if_true,
          if_false, Except.error.injEq, Abort.thrown.injEq] at h
        obtain ⟨_, rfl⟩ := h
        exact hacc _ false (by rw [h6]; rfl) rfl
    cases c6 : w.malloc_utf8
    · refine ⟨fun s h => ?_, fun e s h => ?_⟩
      · simp [VapourSource.ctor_script, ThrowError, convert_ansi_to_utf8, hm, c5, c6] at h
      · simp only [VapourSource.ctor_script, ThrowError, convert_ansi_to_utf8, hm, c5, c6,
          if_true, if_false, Bool.true_eq_false, Except.error.injEq, Abort.thrown.injEq] at h
        obtain ⟨_, rfl⟩ := h
        exact hacc _ false (by rw [held_append, h6]; rfl) rfl
    · refine ⟨fun s h => ?_, fun e s h => ?_⟩
      · simp only [VapourSource.ctor_script, ThrowError, convert_ansi_to_utf8, hm, c5, c6,
          if_true, if_false, Bool.true_eq_false, Except.ok.injEq] at h
        subst h
        refine ⟨h1, h2, rfl, h4, h5, ?_⟩
        show held (_ ++ _) = _
        rw [held_append, h6]
        rfl
      · simp [VapourSource.ctor_script, ThrowError, convert_ansi_to_utf8, hm, c5, c6] at h

theorem accounted_of_chain {s : VapourSource} (h1 : s.is_init ≠ 0) (h2 : s.vsapi = true)
    (h3 : s.script_buffer = true)
    (h6 : held s.events = [Resource.initToken, Resource.scriptBuffer]
      ++ (if s.se then [Resource.evalContext] else [])
      ++ (if s.node then [Resource.outputNode] else [])) : s.Accounted := by
  unfold VapourSource.Accounted
  refine ⟨fun _ => h2, ?_⟩
  rw [h6]
  cases hse : s.se <;> cases hn : s.node <;> simp [VapourSource.owned, h1, h3, hse, hn]

theorem ctor_evaluate_state {w : World} {mode : String} {self : VapourSource}
    (hp : self.is_init ≠ 0 ∧ self.vsapi = true ∧ self.script_buffer = true ∧ self.se = false ∧
      self.node = false ∧ held self.events = [Resource.initToken, Resource.scriptBuffer]) :
    (∀ s, VapourSource.ctor_evaluate w mode self = Except.ok s →
      s.is_init ≠ 0 ∧ s.vsapi = true ∧ s.script_buffer = true ∧ s.node = false ∧
      held s.events = [Resource.initToken, Resource.scriptBuffer]
        ++ (if s.se then [Resource.evalContext] else [])) ∧
    (∀ e s, VapourSource.ctor_evaluate w mode self = Except.error (Abort.thrown e s) →
      s.Accounted) := by
  obtain ⟨h1, h2, h3, h4, h5, h6⟩ := hp
  have hheld : held (if w.se_created = false then self.events
      else self.events ++ [Event.acquire Resource.evalContext])
      = [Resource.initToken, Resource.scriptBuffer]
        ++ (if w.se_created then [Resource.evalContext] else []) := by
    cases w.se_created
    · simpa using h6
    · simp only [Bool.true_eq_false, if_false, if_true, held_append, h6]
      rfl
  by_cases h0 : w.vseval_evaluateScript = 0
  · refine ⟨fun s h => ?_, fun e s h => ?_⟩
    · simp only [VapourSource.ctor_evaluate, ThrowError, h0, ne_eq, not_true_eq_false, if_false,
        Except.ok.injEq] at h
      subst h
      exact ⟨h1, h2, h3, h5, hheld⟩
    · simp [VapourSource.ctor_evaluate, ThrowError, h0] at h
  · refine ⟨fun s h => ?_, fun e s h => ?_⟩
    · simp [VapourSource.ctor_evaluate, ThrowError, h0] at h
    · simp only [VapourSource.ctor_evaluate, ThrowError, h0, ne_eq, not_false_eq_true, if_true,
        Except.error.injEq, Abort.thrown.injEq] at h
      obtain ⟨_, rfl⟩ := h
      apply accounted_of_chain
      · exact h1
      · exact h2
      · exact h3
      · show held _ = _
        rw [hheld]
        simp [h5]

theorem ctor_output_state {w : World} {index : Int} {mode : String} {self : VapourSource}
    (hp : self.is_init ≠ 0 ∧ self.vsapi = true ∧ self.script_buffer = true ∧
      self.node = false ∧
      held self.events = [Resource.initToken, Resource.scriptBuffer]
        ++ (if self.se then [Resource.evalContext] else [])) :
    ∀ s, (VapourSource.ctor_output w index mode self = Except.ok s ∨
        ∃ e, VapourSource.ctor_output w index mode self = Except.error (Abort.thrown e s)) →
      s.Accounted := by
  obtain ⟨h1, h2, h3, h5, h6⟩ := hp
  intro s h
  have hs : s = { self with
      node := w.vseval_getOutput index
      events := if w.vseval_getOutput index = false then self.events
                else self.events ++ [Event.acquire Resource.outputNode] } := by
    cases h0 : w.vseval_getOutput index
    · rcases h with h | ⟨e, h⟩
      · simp [VapourSource.ctor_output, ThrowError, h0] at h
      · simp only [VapourSource.ctor_output, ThrowError, h0, if_true, Except.error.injEq,
          Abort.thrown.injEq] at h
        exact h.2.symm
    · rcases h with h | ⟨e, h⟩
      · simp only [VapourSource.ctor_output, ThrowError, h0, Bool.true_eq_false, if_false,
          Except.ok.injEq] at h
        exact h.symm
      · simp [VapourSource.ctor_output, ThrowError, h0] at h
  subst hs
  apply accounted_of_chain
  · exact h1
  · exact h2
  · exact h3
  · show held _ = _
    cases h0 : w.vseval_getOutput index
    · simp [h6]
    · simp only [Bool.true_eq_false, if_false, if_true, held_append, h6]
      cases self.se <;> rfl

theorem ctor_clip_state {H : Headers} {w : World} {stacked : Bool} {mode : String}
    {self : VapourSource} (hp : self.Accounted) :
    ∀ s, (VapourSource.ctor_clip H w stacked mode self = Except.ok s ∨
        ∃ e, VapourSource.ctor_clip H w stacked mode self = Except.error (Abort.thrown e s)) →
      s.Accounted := by
  intro s h
  have hs : s.is_init = self.is_init ∧ s.se = self.se ∧ s.vsapi = self.vsapi ∧
      s.node = self.node ∧ s.script_buffer = self.script_buffer ∧ s.events = self.events := by
    by_cases h0 : w.getVideoInfo.numFrames = 0
    · rcases h with h | ⟨e, h⟩ <;>
        simp [VapourSource.ctor_clip, ThrowError, h0] at h
      obtain ⟨_, rfl⟩ := h
      simp
    cases hfmt : w.getVideoInfo.format with
    | none =>
      rcases h with h | ⟨e, h⟩ <;>
        simp [VapourSource.ctor_clip, ThrowError, h0, hfmt] at h
      obtain ⟨_, rfl⟩ := h
      simp
    | some format =>
      by_cases h1 : w.getVideoInfo.width = 0 ∨ w.getVideoInfo.height = 0
      · rcases h with h | ⟨e, h⟩ <;>
          simp [VapourSource.ctor_clip, ThrowError, h0, hfmt, h1] at h
        obtain ⟨_, rfl⟩ := h
        simp
      by_cases h2 : w.getVideoInfo.fpsNum = 0
      · rcases h with h | ⟨e, h⟩ <;>
          simp [VapourSource.ctor_clip, ThrowError, h0, hfmt, h1, h2] at h
        obtain ⟨_, rfl⟩ := h
        simp
      by_cases h3 : w.getVideoInfo.fpsNum > UINT_MAX
      · rcases h with h | ⟨e, h⟩ <;>
          simp [VapourSource.ctor_clip, ThrowError, h0, hfmt, h1, h2, h3] at h
        obtain ⟨_, rfl⟩ := h
        simp
      by_cases h4 : w.getVideoInfo.fpsDen > UINT_MAX
      · rcases h with h | ⟨e, h⟩ <;>
          simp [VapourSource.ctor_clip, ThrowError, h0, hfmt, h1, h2, h3, h4] at h
        obtain ⟨_, rfl⟩ := h
        simp
      obtain ⟨pixel_type, hpt⟩ := get_avs_pixel_type_some H format.id
      by_cases h5 : pixel_type = H.CS_UNKNOWN
      · rcases h with h | ⟨e, h⟩ <;>
          simp [VapourSource.ctor_clip, ThrowError, h0, hfmt, h1, h2, h3, h4, hpt, h5] at h
        obtain ⟨_, rfl⟩ := h
        simp
      · rcases h with h | ⟨e, h⟩ <;>
          simp [VapourSource.ctor_clip, ThrowError, h0, hfmt, h1, h2, h3, h4, hpt, h5] at h
        subst h
        simp
  obtain ⟨e1, e2, e3, e4, e5, e6⟩ := hs
  unfold VapourSource.Accounted VapourSource.owned at hp ⊢
  rw [e1, e2, e3, e4, e5, e6]
  exact hp

/-- The members of an object the constructor returns, or leaves behind when it throws, agree
with the events of the run. -/
theorem ctor_accounted {H : Headers} {w : World} {source : String} {stacked : Bool}
    {index : Int} {mode : String} {s : VapourSource}
    (h : VapourSource.ctor H w source stacked index mode = Except.ok s ∨
      ∃ e, VapourSource.ctor H w source stacked index mode = Except.error (Abort.thrown e s)) :
    s.Accounted := by
  unfold VapourSource.ctor at h
  have split : ∀ {x : Except Abort VapourSource} {f : VapourSource → Except Abort VapourSource},
      (x >>= f = Except.ok s ∨ ∃ e, x >>= f = Except.error (Abort.thrown e s)) →
      (∃ e, x = Except.error (Abort.thrown e s)) ∨
        ∃ a, x = Except.ok a ∧ (f a = Except.ok s ∨ ∃ e, f a = Except.error (Abort.thrown e s)) := by
    intro x f hx
    rcases hx with hx | ⟨e, hx⟩
    · obtain ⟨a, ha, hf⟩ := bind_ok_inv hx
      exact Or.inr ⟨a, ha, Or.inl hf⟩
    · rcases bind_error_inv hx with hx | ⟨a, ha, hf⟩
      · exact Or.inl ⟨e, hx⟩
      · exact Or.inr ⟨a, ha, Or.inr ⟨e, hf⟩⟩
  rcases split h with ⟨e, h1⟩ | ⟨s1, h1, h⟩
  · exact ctor_init_state.2 e s h1
  have p1 := ctor_init_state.1 s1 h1
  rcases split h with ⟨e, h2⟩ | ⟨s2, h2, h⟩
  · exact (ctor_vsapi_state p1).2 e s h2
  have p2 := (ctor_vsapi_state p1).1 s2 h2
  rcases split h with ⟨e, h3⟩ | ⟨s3, h3, h⟩
  · exact (ctor_script_state p2).2 e s h3
  have p3 := (ctor_script_state p2).1 s3 h3
  rcases split h with ⟨e, h4⟩ | ⟨s4, h4, h⟩
  · exact (ctor_evaluate_state p3).2 e s h4
  have p4 := (ctor_evaluate_state p3).1 s4 h4
  rcases split h with ⟨e, h5⟩ | ⟨s5, h5, h⟩
  · exact ctor_output_state p4 s (Or.inr ⟨e, h5⟩)
  have p5 := ctor_output_state p4 s5 (Or.inl h5)
  exact ctor_clip_state p5 s h

/-- X1: whatever resource the members own when the constructor throws is still held when the
exception reaches the caller of `create_vapoursource`: no path of the constructor releases
the initialization token, the script buffer, the script handle or the node. -/
theorem create_vapoursource_keeps_owned (H : Headers) (w : World) (source : String)
    (stacked : Option Bool) (index : Option Int) (mode : String) (e : AvisynthError)
    (s : VapourSource)
    (h : create_vapoursource H w (some source) stacked index mode
      = Except.error (Abort.thrown e s)) :
    ∀ r ∈ s.owned, r ∈ leaked (create_vapoursource H w (some source) stacked index mode) := by
  intro r hr
  rw [h]
  have hacc : s.Accounted := ctor_accounted (Or.inr ⟨e, h⟩)
  rw [← hacc.2] at hr
  exact (List.mem_filter.mp hr).1

/-- X2: the destructor, run on the object the constructor returned or on the members it left
behind when it threw, returns, and its releases are a rearrangement of the resources held at that
point other than the temporary file buffer. -/
theorem dtor_after_ctor (H : Headers) (w : World) (source : String) (stacked : Bool)
    (index : Int) (mode : String) (s : VapourSource)
    (h : VapourSource.ctor H w source stacked index mode = Except.ok s ∨
      ∃ e, VapourSource.ctor H w source stacked index mode = Except.error (Abort.thrown e s)) :
    ∃ evs, s.dtor = some evs ∧
      evs.Perm (((held s.events).filter (fun r => decide (r ≠ Resource.fileBuffer))).map
        Event.release) := by
  obtain ⟨hv, hheld⟩ : s.Accounted := ctor_accounted h
  rw [hheld]
  obtain ⟨is_init, se, vsapi, node, vsvi, script_buffer, vi, func, events⟩ := s
  simp only at hv
  unfold VapourSource.dtor VapourSource.owned
  simp only
  by_cases hi : is_init = 0 <;> cases se <;> cases node <;> cases script_buffer <;>
    simp [hi, hv] <;> decide

/-- X3: in file mode a failed `fopen` leaves the `calloc`ed file buffer allocated, and no
member points to it: it stays held even if the destructor is run on the members. -/
theorem fopen_failure_keeps_file_buffer :
    leaked (create_vapoursource stdHeaders
        { okWorld clipYUV420P16 with fopen := fun _ => false } (some "clip.vpy") none none
        "VSImport")
      = [Resource.initToken, Resource.fileBuffer] := by
  decide

theorem create_vapoursource_halfBuilt :
    create_vapoursource stdHeaders failingScriptWorld (some "clip.set_output()") none none
        "VSEval"
      = Except.error (Abort.thrown
          ⟨"%s: failed to evaluate script.\n%s",
            [FmtArg.str "VSEval", FmtArg.str "name 'clip' is not defined"]⟩
          halfBuiltSession) := by
  rfl

/-- X1, at a concrete input: the script buffer is still held when the evaluation error of
`failingScriptWorld` reaches the caller. -/
theorem create_vapoursource_keeps_owned_witness :
    Resource.scriptBuffer ∈ leaked (create_vapoursource stdHeaders failingScriptWorld
      (some "clip.set_output()") none none "VSEval") :=
  create_vapoursource_keeps_owned stdHeaders failingScriptWorld "clip.set_output()" none none
    "VSEval" _ halfBuiltSession create_vapoursource_halfBuilt Resource.scriptBuffer (by decide)

/-- X2, at a concrete input: the destructor on the members left by the evaluation error of
`failingScriptWorld`. -/
theorem dtor_after_ctor_witness :
    ∃ evs, halfBuiltSession.dtor = some evs ∧
      evs.Perm (((held halfBuiltSession.events).filter
        (fun r => decide (r ≠ Resource.fileBuffer))).map Event.release) :=
  dtor_after_ctor stdHeaders failingScriptWorld "clip.set_output()" false 0 "VSEval"
    halfBuiltSession (Or.inr ⟨_, create_vapoursource_halfBuilt⟩)

/-! ## Concrete inputs: the theorems applied, and the inputs on which a claim fails -/

theorem ctor_stackedSession :
    VapourSource.ctor stdHeaders (okWorld clipYUV420P16) "clip.vpy" true 0 "VSImport"
      = Except.ok stackedSession := by
  rfl

theorem ctor_interleavedSession :
    VapourSource.ctor stdHeaders (okWorld clipYUV420P16) "clip.vpy" false 0 "VSImport"
      = Except.ok interleavedSession := by
  rfl

theorem bytes_or (b0 b1 : Byte) : b0.val + 256 * b1.val = b1.val <<< 8 ||| b0.val := by
  have e := Nat.mul_add_lt_is_or (i := 8) b0.isLt b1.val
  have e2 : b1.val <<< 8 = 2 ^ 8 * b1.val := by rw [Nat.shiftLeft_eq, Nat.mul_comm]
  rw [e2, ← e]
  omega

theorem stackedReady_ramp_blank (p sel : Int) :
    StackedReady (rampFrame.plane p) (blankFrame.plane sel) := by
  constructor <;> simp only [rampFrame, blankFrame] <;> decide

/-- C1, counterexample: three calls that do not return, each with a pitch not below the row size
and a source stride not below twice the row size.  A destination with row size 8 and pitch
8: the store to the lower half at address `8192 + 8` is misaligned.  A destination with
aligned rows of 16 bytes at pitch 2^30, 4 rows high: the `int` product `dst_pitch * height`
is 2^31 and wraps, and the store of the low bytes goes to an address below the buffer.  And a
source of one row of eight samples at stride 16 with a destination of two rows of 8 bytes at
pitch 16, all pointers and strides multiples of 16: the second load, of the source bytes
16 to 31, lies behind the 16 bytes of the source buffer. -/
theorem write_stacked_frame_not_ready :
    ((tightFrame.plane stdHeaders.PLANAR_Y).GetRowSize
        ≤ (tightFrame.plane stdHeaders.PLANAR_Y).GetPitch ∧
      2 * (tightFrame.plane stdHeaders.PLANAR_Y).GetRowSize ≤ (rampFrame.plane 0).getStride ∧
      write_stacked_frame stdHeaders rampFrame tightFrame 1 = none) ∧
    ((hugeFrame.plane stdHeaders.PLANAR_Y).GetRowSize
        ≤ (hugeFrame.plane stdHeaders.PLANAR_Y).GetPitch ∧
      2 * (hugeFrame.plane stdHeaders.PLANAR_Y).GetRowSize ≤ (rampFrame.plane 0).getStride ∧
      wrap32 ((hugeFrame.plane stdHeaders.PLANAR_Y).GetPitch
        * Int.tdiv (hugeFrame.plane stdHeaders.PLANAR_Y).GetHeight 2) = -2147483648 ∧
      write_stacked_frame stdHeaders rampFrame hugeFrame 1 = none) ∧
    ((pairFrame.plane stdHeaders.PLANAR_Y).GetRowSize
        ≤ (pairFrame.plane stdHeaders.PLANAR_Y).GetPitch ∧
      2 * (pairFrame.plane stdHeaders.PLANAR_Y).GetRowSize ≤ (narrowFrame.plane 0).getStride ∧
      (narrowFrame.plane 0).getReadPtr % 16 = 0 ∧ (narrowFrame.plane 0).getStride % 16 = 0 ∧
      (pairFrame.plane stdHeaders.PLANAR_Y).GetWritePtr % 16 = 0 ∧
      (pairFrame.plane stdHeaders.PLANAR_Y).GetPitch % 16 = 0 ∧
      Int.tdiv (pairFrame.plane stdHeaders.PLANAR_Y).GetHeight 2 * (narrowFrame.plane 0).getStride
        = (narrowFrame.plane 0).size ∧
      write_stacked_frame stdHeaders narrowFrame pairFrame 1 = none) := by
  refine ⟨⟨by decide, by decide, rfl⟩, ⟨by decide, by decide, by decide, rfl⟩,
    by decide, by decide, by decide, by decide, by decide, by decide, by decide, rfl⟩

/-- C1, at a concrete input: three planes with rows of 8 bytes, a partial chunk, at pitch 16 in
buffers of 64 bytes, from source rows at stride 32; row 1, column 7 of plane 1 holds the odd
byte of the sample in the upper half and the even byte at row `2 + 1`. -/
theorem write_stacked_frame_splits_witness :
    ∃ dst', write_stacked_frame stdHeaders rampFrame blankFrame 3 = some dst' ∧
      (dst'.plane 2).mem (8192 + 1 * 16 + 7) = (rampFrame.plane 1).mem (4096 + 1 * 32 + 2 * 7 + 1) ∧
      (dst'.plane 2).mem (8192 + (2 + 1) * 16 + 7) = (rampFrame.plane 1).mem (4096 + 1 * 32 + 2 * 7) := by
  obtain ⟨dst', h, hc⟩ := write_stacked_frame_splits stdHeaders (by decide) rampFrame blankFrame 3
    (Or.inr rfl) (fun p sel _ _ => stackedReady_ramp_blank p sel)
    (fun p y x => (rampFrame.plane p).mem ((rampFrame.plane p).getReadPtr
      + y * (rampFrame.plane p).getStride + 2 * x + 1))
    (fun p y x => (rampFrame.plane p).mem ((rampFrame.plane p).getReadPtr
      + y * (rampFrame.plane p).getStride + 2 * x))
    (fun p y x => bytes_or _ _)
  exact ⟨dst', h, hc 1 2 (by decide) rfl 1 7 (by decide) (by decide) (by decide) (by decide)⟩

/-- C2, counterexample: a YUY2 clip, whose samples have 2 bytes, with `stacked = false` keeps
640x480 (the claim: 1280x480); a planar 16-bit clip of width 2^30 gets the width -2^31; and
for a format record with a planar id and 4 bytes per sample the width 640 becomes
`640 << 3 = 5120`. -/
theorem ctor_geometry_not_doubled :
    clipYUY2.format.map VSFormat.bytesPerSample = some 2 ∧
    (VapourSource.ctor stdHeaders (okWorld clipYUY2) "clip.vpy" false 0 "VSImport").toOption.map
        (fun s => (s.vi.width, s.vi.height)) = some (640, 480) ∧
    (VapourSource.ctor stdHeaders (okWorld clipWide) "clip.vpy" false 0 "VSImport").toOption.map
        (fun s => s.vi.width) = some (-2147483648) ∧
    (VapourSource.ctor stdHeaders (okWorld clipFourByte) "clip.vpy" false 0
        "VSImport").toOption.map (fun s => (s.vi.width, s.vi.height)) = some (5120, 480) := by
  decide

/-- C2, at a concrete input: a planar 16-bit clip of 640x480 with `stacked = false` becomes
1280x480. -/
theorem ctor_geometry_witness :
    VapourSource.ctor stdHeaders (okWorld clipYUV420P16) "clip.vpy" false 0 "VSImport"
        = Except.ok interleavedSession ∧
      interleavedSession.vi.width = 2 * 640 ∧ interleavedSession.vi.height = 480 :=
  ⟨ctor_interleavedSession,
    (ctor_geometry stdHeaders (okWorld clipYUV420P16) "clip.vpy" false 0 "VSImport"
      interleavedSession ⟨stdHeaders.pfYUV420P16, 2, 3⟩ ctor_interleavedSession rfl
      (by decide) (by decide)).2.2.1 (by decide) rfl rfl (by decide) (by decide)⟩

/-- C3, at a concrete input: the headers as shipped have seventeen different ids; `YUV422P9` maps
to `YV16` and the id 42 to `CS_UNKNOWN`. -/
theorem get_avs_pixel_type_table_witness :
    stdHeaders.vsFormats.Nodup ∧
      get_avs_pixel_type stdHeaders 3000017 = some stdHeaders.CS_YV16 ∧
      get_avs_pixel_type stdHeaders 42 = some 0 :=
  ⟨by decide,
    (get_avs_pixel_type_table stdHeaders (by decide)).2.1.2.2.2.2.2.2.2.1,
    (get_avs_pixel_type_table stdHeaders (by decide)).2.2 42 (by decide)⟩

/-- C4, at a concrete input: three planes with rows of 8 bytes at pitch 16; row 3, column 5 of
plane 2 holds the source byte, and column 12 of the same row, in the padding, is still 0. -/
theorem write_interleaved_frame_copies_witness :
    ∃ dst', write_interleaved_frame stdHeaders rampFrame blankFrame 3 = some dst' ∧
      (dst'.plane 4).mem (8192 + 3 * 16 + 5) = (rampFrame.plane 2).mem (4096 + 3 * 32 + 5) ∧
      (dst'.plane 4).mem (8192 + 3 * 16 + 12) = 0 := by
  obtain ⟨dst', h, hc⟩ := write_interleaved_frame_copies stdHeaders (by decide) rampFrame
    blankFrame 3 (Or.inr rfl)
  obtain ⟨h1, h2⟩ := hc 2 4 (by decide) rfl (by decide)
  exact ⟨dst', h, h1 3 5 (by decide) (by decide) (by decide) (by decide),
    h2 3 12 (by decide) (by decide) (by decide) (by decide)⟩

/-- C5, failing input: `VSEval` on a script that fails to evaluate.  The exception leaves
`create_vapoursource` while the initialization token, the script buffer and the script
handle are still held. -/
theorem create_vapoursource_leaks :
    leaked (create_vapoursource stdHeaders failingScriptWorld (some "clip.set_output()") none
      none "VSEval")
      = [Resource.initToken, Resource.scriptBuffer, Resource.evalContext] := by
  decide

/-- C6, counterexample: on the fully constructed object the destructor frees the script buffer
first, before the node and the evaluation context, not third. -/
theorem dtor_order_full :
    stackedSession.dtor = some [Event.release Resource.scriptBuffer,
      Event.release Resource.outputNode, Event.release Resource.evalContext,
      Event.release Resource.initToken] ∧
    stackedSession.dtor ≠ some [Event.release Resource.outputNode,
      Event.release Resource.evalContext, Event.release Resource.scriptBuffer,
      Event.release Resource.initToken] := by
  decide

/-- C6, at a concrete input: the members as they are when the evaluation of the script threw. -/
theorem dtor_releases_witness :
    ∃ evs, halfBuiltSession.dtor = some evs ∧
      evs.Perm (halfBuiltSession.owned.map Event.release) ∧
      evs.Sublist [Event.release Resource.scriptBuffer, Event.release Resource.outputNode,
        Event.release Resource.evalContext, Event.release Resource.initToken] :=
  dtor_releases halfBuiltSession (by decide)

/-- C7, at concrete inputs: a script file of 16 MiB + 1 byte is rejected, one of exactly 16 MiB
is constructed. -/
theorem ctor_rejects_witness :
    get_filesize bigFileWorld "clip.vpy" > 16 * 1024 * 1024 ∧
    (∃ e s, VapourSource.ctor stdHeaders bigFileWorld "clip.vpy" false 0 "VSImport"
      = Except.error (Abort.thrown e s)) ∧
    get_filesize (okWorld clipYUV420P16) "clip.vpy" = 16 * 1024 * 1024 ∧
    VapourSource.ctor stdHeaders (okWorld clipYUV420P16) "clip.vpy" false 0 "VSImport"
      = Except.ok interleavedSession :=
  ⟨by decide,
    (ctor_rejects stdHeaders bigFileWorld "clip.vpy" false 0 "VSImport").1
      (Or.inr (Or.inl ⟨rfl, by decide⟩)),
    by decide, ctor_interleavedSession⟩

/-- C8, counterexample: a clip description with width -640, frame count -100 and fps numerator
-1 is accepted; the descriptor has a negative width and frame count, and the stored
numerator is `2^32 - 1`.  And a planar 16-bit clip of width 2^30, all of whose values are
positive, is accepted with `stacked = false` and gets the width -2^31. -/
theorem ctor_descriptor_unchecked :
    (VapourSource.ctor stdHeaders (okWorld clipNegative) "clip.vpy" true 0 "VSImport").toOption.map
        (fun s => (s.vi.num_frames, s.vi.width, s.vi.fps_numerator))
      = some (-100, -640, 4294967295) ∧
    clipNegative.fpsNum = -1 ∧
    (VapourSource.ctor stdHeaders (okWorld clipWide) "clip.vpy" false 0 "VSImport").toOption.map
        (fun s => s.vi.width) = some (-2147483648) := by
  decide

/-- C8, at a concrete input: the planar 16-bit clip of 640x480, 100 frames at 30000/1001 fps,
with `stacked = true`: the height 480 is doubled, and `480 * 2` is an `int`. -/
theorem ctor_descriptor_witness :
    0 < stackedSession.vi.num_frames ∧ 0 < stackedSession.vi.width ∧
    0 < stackedSession.vi.height ∧ 0 < stackedSession.vi.fps_numerator ∧
    (okWorld clipYUV420P16).getVideoInfo.fpsNum ≤ 4294967295 ∧
    (okWorld clipYUV420P16).getVideoInfo.fpsDen ≤ 4294967295 ∧
    (stackedSession.vi.fps_numerator : Int) = (okWorld clipYUV420P16).getVideoInfo.fpsNum ∧
    (stackedSession.vi.fps_denominator : Int) = (okWorld clipYUV420P16).getVideoInfo.fpsDen :=
  ctor_descriptor stdHeaders (okWorld clipYUV420P16) "clip.vpy" true 0 "VSImport" stackedSession
    ⟨stdHeaders.pfYUV420P16, 2, 3⟩ ctor_stackedSession rfl (by decide) (by decide) (by decide)
    (by decide) (by decide) (fun _ => ⟨by decide, by decide⟩)

/-- C9, at a concrete input: frame 100 of a clip of 100 frames does not exist upstream. -/
theorem GetFrame_calls_witness :
    rampEnv.getFrame 100 = none ∧
    stackedSession.GetFrame stdHeaders rampEnv 100
      = ⟨[FrameCall.NewVideoFrame stackedSession.vi, FrameCall.getFrame 100],
          some (rampEnv.NewVideoFrame stackedSession.vi)⟩ :=
  ⟨rfl, (GetFrame_calls stdHeaders stackedSession rampEnv 100).1 rfl⟩

/-- C10, counterexample: a YUY2 clip, whose samples have 2 bytes, with `stacked = true` gets
`write_interleaved_frame`.  And a planar 16-bit clip of height 2^30 with `stacked = true`
gets `write_stacked_frame` and the height -2^31, not twice the source height. -/
theorem ctor_strategy_exceptions :
    clipYUY2.format.map VSFormat.bytesPerSample = some 2 ∧
    (VapourSource.ctor stdHeaders (okWorld clipYUY2) "clip.vpy" true 0 "VSImport").toOption.map
        (fun s => s.func_write_frame) = some (some WriteFrame.write_interleaved_frame) ∧
    (VapourSource.ctor stdHeaders (okWorld clipTall) "clip.vpy" true 0 "VSImport").toOption.map
        (fun s => (s.func_write_frame, s.vi.height))
      = some (some WriteFrame.write_stacked_frame, -2147483648) := by
  decide

/-- C10, at a concrete input: the planar 16-bit clip with `stacked = true` gets
`write_stacked_frame`, keeps its width of 640 and doubles its height to 960. -/
theorem ctor_strategy_witness :
    stackedSession.func_write_frame = some WriteFrame.write_stacked_frame ∧
    stackedSession.vi.width = 640 ∧ 640 * 2 = 2 * stackedSession.vi.width ∧
    stackedSession.vi.height = 2 * 480 :=
  ⟨rfl,
    (ctor_strategy stdHeaders (okWorld clipYUV420P16) "clip.vpy" true 0 "VSImport" stackedSession
      ⟨stdHeaders.pfYUV420P16, 2, 3⟩ ctor_stackedSession rfl (by decide) (by decide)).2.2
      rfl rfl (by decide) (by decide)⟩

end VSBridge
